/-
  Verification of the UCSI protocol layer of the `embedded-usb-pd` repository:
  the command/response codec (src/ucsi/mod.rs, src/ucsi/ppm/*, src/ucsi/lpm/*)
  and the PPM state machine (src/ucsi/ppm/state_machine.rs).

  The Rust code is shallowly embedded: byte buffers are `List Nat` (each
  element a byte value < 256), fixed-width integers are `Nat` with explicit
  `% 2^w` where the Rust code truncates, bitfield accessors are shift/mask
  arithmetic on the backing integer, and fallible decoding returns `Except`.
  The `bitfield!` crate used by the source numbers bits LSB-first; for a
  `[u8; N]` backing store bit `i` lives in byte `i / 8` at position `i % 8`,
  which coincides with bit `i` of the little-endian assembled integer, so
  byte-array bitfields are modelled as a single `Nat` assembled LE.
-/
import Mathlib

set_option linter.unusedVariables false
set_option linter.unreachableTactic false
set_option linter.unusedTactic false

namespace UsbPd

/-! ## Byte-level helpers -/

/-- Extract the field of width `w` starting at bit `lo` (bitfield `hi, lo`
accessor with `w = hi - lo + 1`). -/
def getBits (v lo w : Nat) : Nat := (v >>> lo) % 2 ^ w

/-- Test a single bit (bitfield `bool` accessor). -/
def bitIsSet (v i : Nat) : Bool := (v >>> i) % 2 = 1

/-- Store value `x` (masked to width `w`) into the field at bit `lo` of `v`
(bitfield setter semantics: the stored value is truncated to the field). -/
def setBits (v lo w x : Nat) : Nat :=
  v % 2 ^ lo + (x % 2 ^ w) * 2 ^ lo + (v >>> (lo + w)) * 2 ^ (lo + w)

/-- Little-endian byte serialization of `v` into `n` bytes (bincode
fixed-int encoding of fixed-width integers). -/
def bytesLE : Nat → Nat → List Nat
  | 0, _ => []
  | n + 1, v => v % 256 :: bytesLE n (v / 256)

/-- Read `n` bytes from the stream and assemble them little-endian;
fails when the stream is too short (bincode `UnexpectedEnd`). -/
def readLE : Nat → List Nat → Option (Nat × List Nat)
  | 0, bs => some (0, bs)
  | _ + 1, [] => none
  | n + 1, b :: bs => (readLE n bs).map fun p => (b + 256 * p.1, p.2)

/-- Skip `n` bytes of padding (the source decodes `[u8; N]` padding and
discards it). -/
def skipBytes : Nat → List Nat → Option (List Nat)
  | 0, bs => some bs
  | _ + 1, [] => none
  | n + 1, _ :: bs => skipBytes n bs

/-- Take `n` bytes from the stream (decoding a `[u8; N]` that is kept). -/
def takeBytes : Nat → List Nat → Option (List Nat × List Nat)
  | 0, bs => some ([], bs)
  | _ + 1, [] => none
  | n + 1, b :: bs => (takeBytes n bs).map fun p => (b :: p.1, p.2)

/-! ## Decode errors

Mirrors `bincode::error::DecodeError` as used by the source: the
`UnexpectedVariant` constructor carries the offending type name, the
allowed set and the raw value found. -/

inductive DecodeErr where
  | unexpectedVariant (typeName : String) (allowed : List Nat) (found : Nat)
  | unexpectedEnd
  deriving DecidableEq, Repr

/-! ## CommandType (src/ucsi/mod.rs) -/

inductive CommandType where
  | ppmReset
  | cancel
  | connectorReset
  | ackCcCi
  | setNotificationEnable
  | getCapability
  | getConnectorCapability
  | setCcom
  | setUor
  | setPdm
  | setPdr
  | getAlternateModes
  | getCamSupported
  | getCurrentCam
  | setNewCam
  | getPdos
  | getCableProperty
  | getConnectorStatus
  | getErrorStatus
  | setPowerLevel
  | getPdMessage
  | getAttentionVdo
  | getCamCs
  | lpmFwUpdateRequest
  | securityRequest
  | setRetimerMode
  | setSinkPath
  | setPdos
  | readPowerLevel
  | chunkingSupport
  | setUsb
  | getLpmPpmInfo
  deriving DecidableEq, Repr

/-- The `#[repr(u8)]` discriminant values (`impl From<CommandType> for u8`). -/
def CommandType.toByte : CommandType → Nat
  | .ppmReset => 0x01
  | .cancel => 0x02
  | .connectorReset => 0x03
  | .ackCcCi => 0x04
  | .setNotificationEnable => 0x05
  | .getCapability => 0x06
  | .getConnectorCapability => 0x07
  | .setCcom => 0x08
  | .setUor => 0x09
  | .setPdm => 0x0A
  | .setPdr => 0x0B
  | .getAlternateModes => 0x0C
  | .getCamSupported => 0x0D
  | .getCurrentCam => 0x0E
  | .setNewCam => 0x0F
  | .getPdos => 0x10
  | .getCableProperty => 0x11
  | .getConnectorStatus => 0x12
  | .getErrorStatus => 0x13
  | .setPowerLevel => 0x14
  | .getPdMessage => 0x15
  | .getAttentionVdo => 0x16
  | .getCamCs => 0x18
  | .lpmFwUpdateRequest => 0x19
  | .securityRequest => 0x1A
  | .setRetimerMode => 0x1B
  | .setSinkPath => 0x1C
  | .setPdos => 0x1D
  | .readPowerLevel => 0x1E
  | .chunkingSupport => 0x1F
  | .setUsb => 0x21
  | .getLpmPpmInfo => 0x22

/-- `impl TryFrom<u8> for CommandType`; the error is `InvalidCommandType`
carrying the offending byte. -/
def CommandType.tryFromByte (value : Nat) : Except Nat CommandType :=
  match value with
  | 0x01 => .ok .ppmReset
  | 0x02 => .ok .cancel
  | 0x03 => .ok .connectorReset
  | 0x04 => .ok .ackCcCi
  | 0x05 => .ok .setNotificationEnable
  | 0x06 => .ok .getCapability
  | 0x07 => .ok .getConnectorCapability
  | 0x08 => .ok .setCcom
  | 0x09 => .ok .setUor
  | 0x0A => .ok .setPdm
  | 0x0B => .ok .setPdr
  | 0x0C => .ok .getAlternateModes
  | 0x0D => .ok .getCamSupported
  | 0x0E => .ok .getCurrentCam
  | 0x0F => .ok .setNewCam
  | 0x10 => .ok .getPdos
  | 0x11 => .ok .getCableProperty
  | 0x12 => .ok .getConnectorStatus
  | 0x13 => .ok .getErrorStatus
  | 0x14 => .ok .setPowerLevel
  | 0x15 => .ok .getPdMessage
  | 0x16 => .ok .getAttentionVdo
  | 0x18 => .ok .getCamCs
  | 0x19 => .ok .lpmFwUpdateRequest
  | 0x1A => .ok .securityRequest
  | 0x1B => .ok .setRetimerMode
  | 0x1C => .ok .setSinkPath
  | 0x1D => .ok .setPdos
  | 0x1E => .ok .readPowerLevel
  | 0x1F => .ok .chunkingSupport
  | 0x21 => .ok .setUsb
  | 0x22 => .ok .getLpmPpmInfo
  | v => .error v

/-- `CommandType::has_response`, written as a negative match exactly like
the source. -/
def CommandType.hasResponse : CommandType → Bool
  | .ppmReset | .cancel | .connectorReset | .ackCcCi | .setNotificationEnable
  | .setCcom | .setUor | .setPdr | .setNewCam => false
  | _ => true

/-- The set of opcodes accepted on the wire as characterized by the spec:
0x01 through 0x22 with the reserved gaps 0x17 and 0x20 excluded. -/
def validOpcode (b : Nat) : Bool :=
  1 ≤ b && b ≤ 0x22 && b ≠ 0x17 && b ≠ 0x20

/-! ## CommandHeader (src/ucsi/mod.rs)

`CommandHeaderRaw` is a `u16` bitfield: `command` in bits 7..0, `data_len`
in bits 15..8. Decoding validates the command byte and reports the
`AllowedEnumVariants` list spelled out in the source (which stops at
`SetUsb` and omits `GetLpmPpmInfo`), with `found` the whole raw `u16`. -/

structure CommandHeader where
  command : CommandType
  dataLen : Nat
  deriving DecidableEq, Repr

/-- The allowed list spelled out in `impl Decode for CommandHeader`. -/
def allowedHeaderOpcodes : List Nat :=
  [0x01, 0x02, 0x03, 0x04, 0x05, 0x06, 0x07, 0x08, 0x09, 0x0A, 0x0B, 0x0C,
   0x0D, 0x0E, 0x0F, 0x10, 0x11, 0x12, 0x13, 0x14, 0x15, 0x16, 0x18, 0x19,
   0x1A, 0x1B, 0x1C, 0x1D, 0x1E, 0x1F, 0x21]

/-- `CommandHeader::new(command, data_len).encode`: the raw `u16`
little-endian. -/
def encodeCommandHeader (h : CommandHeader) : List Nat :=
  bytesLE 2 (h.command.toByte % 256 + 256 * (h.dataLen % 256))

/-- `impl Decode for CommandHeader`. -/
def decodeCommandHeader (bs : List Nat) : Except DecodeErr (CommandHeader × List Nat) :=
  match readLE 2 bs with
  | none => .error .unexpectedEnd
  | some (raw, rest) =>
    match CommandType.tryFromByte (raw % 256) with
    | .ok c => .ok (⟨c, raw / 256⟩, rest)
    | .error _ => .error (.unexpectedVariant "CommandHeader" allowedHeaderOpcodes raw)

/-! ## Small enumerations used by command arguments -/

/-- `lpm::Recipient` (src/ucsi/lpm/mod.rs). -/
inductive Recipient where
  | connector | sop | sopP | sopPp
  deriving DecidableEq, Repr

/-- `TryFrom<u8> for Recipient`; error is `InvalidRecipient` carrying the
value. -/
def Recipient.tryFromByte (value : Nat) : Except Nat Recipient :=
  match value with
  | 0x0 => .ok .connector
  | 0x1 => .ok .sop
  | 0x2 => .ok .sopP
  | 0x3 => .ok .sopPp
  | v => .error v

/-- `get_pdos::SourceCapabilityType`. -/
inductive SourceCapabilityType where
  | current | advertised | maximum
  deriving DecidableEq, Repr

/-- `TryFrom<u8> for SourceCapabilityType`; error is
`InvalidSourceCapabilityType` carrying the value. -/
def SourceCapabilityType.tryFromByte (value : Nat) : Except Nat SourceCapabilityType :=
  match value with
  | 0x0 => .ok .current
  | 0x1 => .ok .advertised
  | 0x2 => .ok .maximum
  | v => .error v

/-- `set_power_level::Current` (collapsed to its discriminant: the decoded
enum is discarded by the argument decoder, only validity matters). -/
def tryCurrentFromByte (value : Nat) : Except Nat Nat :=
  match value with
  | 0x00 => .ok 0x00
  | 0x01 => .ok 0x01
  | 0x02 => .ok 0x02
  | 0x03 => .ok 0x03
  | v => .error v

/-! ## Commands (src/ucsi/ppm/mod.rs, src/ucsi/lpm/mod.rs)

Argument bitfield wrappers (`ack_cc_ci::Ack`, `set_notification_enable::
NotificationEnable`, `set_ccom::Args`, ...) store only the raw backing
integer, so they are embedded as that raw `Nat`. `PortId` is a transparent
`u8` wrapper for both `GlobalPortId` and `LocalPortId` (`From<u8>` is the
identity on the value), so ports are plain `Nat`s; nothing in the protocol
code distinguishes the two beyond the type parameter. -/

/-- `ack_cc_ci::Ack::connector_change` — bit 0 of the raw `u8`. -/
def ackConnectorChange (ack : Nat) : Bool := bitIsSet ack 0

/-- `ack_cc_ci::Ack::command_complete` — bit 1 of the raw `u8`. -/
def ackCommandComplete (ack : Nat) : Bool := bitIsSet ack 1

/-- `ppm::Command`: commands that only affect the PPM level. -/
inductive PpmCommand where
  | ppmReset
  | cancel
  | ackCcCi (ack : Nat)
  | setNotificationEnable (notificationEnable : Nat)
  | getCapability
  deriving DecidableEq, Repr

def PpmCommand.commandType : PpmCommand → CommandType
  | .ppmReset => .ppmReset
  | .cancel => .cancel
  | .ackCcCi _ => .ackCcCi
  | .setNotificationEnable _ => .setNotificationEnable
  | .getCapability => .getCapability

/-- `lpm::CommandData`. Argument payloads are the raw backing integers of
the per-command bitfields (`set_power_level::ArgsRaw` is a `[u8; 6]`
bitfield, assembled little-endian into one 48-bit value). -/
inductive LpmCommandData where
  | connectorReset
  | getConnectorStatus
  | getConnectorCapability
  | setPowerLevel (raw : Nat)
  | setNewCam (connectorNumber : Nat) (enter : Bool) (amOffset : Nat) (amSpecific : Nat)
  | getErrorStatus
  | setCcom (raw : Nat)
  | setUor (raw : Nat)
  | setPdr (raw : Nat)
  | getAlternateModes (raw : Nat)
  | getCamSupported
  | getCurrentCam
  | getPdos (raw : Nat)
  | getCableProperty
  deriving DecidableEq, Repr

def LpmCommandData.commandType : LpmCommandData → CommandType
  | .connectorReset => .connectorReset
  | .getConnectorStatus => .getConnectorStatus
  | .getConnectorCapability => .getConnectorCapability
  | .setPowerLevel _ => .setPowerLevel
  | .setNewCam _ _ _ _ => .setNewCam
  | .getErrorStatus => .getErrorStatus
  | .setCcom _ => .setCcom
  | .setUor _ => .setUor
  | .setPdr _ => .setPdr
  | .getAlternateModes _ => .getAlternateModes
  | .getCamSupported => .getCamSupported
  | .getCurrentCam => .getCurrentCam
  | .getPdos _ => .getPdos
  | .getCableProperty => .getCableProperty

/-- `lpm::Command<T>`: a port id plus the operation. -/
structure LpmCommand where
  port : Nat
  operation : LpmCommandData
  deriving DecidableEq, Repr

/-- `ucsi::Command<T>`. -/
inductive Command where
  | ppm (c : PpmCommand)
  | lpm (c : LpmCommand)
  deriving DecidableEq, Repr

def Command.commandType : Command → CommandType
  | .ppm c => c.commandType
  | .lpm c => c.operation.commandType

/-- `get_pdos::Args::source_capability_type` — bits 20..19 of the raw
`u32`, converted with `.try_into().unwrap()`. The `unwrap` panics when the
field holds the out-of-range value 3; the panic is modelled as `none`. -/
def getPdosSourceCapabilityType (raw : Nat) : Option SourceCapabilityType :=
  (SourceCapabilityType.tryFromByte (getBits raw 19 2)).toOption

/-- `TryFrom<ArgsRaw> for get_pdos::Args`: the validating constructor,
which rejects an out-of-range source capability type. -/
def getPdosArgsTryFromRaw (raw : Nat) : Except Nat Nat :=
  match SourceCapabilityType.tryFromByte (getBits raw 19 2) with
  | .ok _ => .ok raw
  | .error v => .error v

/-! ## Command encoders

`ppm::Command`'s `Encode` impl writes only the 6 argument bytes (the
header is not written by this impl); `lpm::Command`'s `Encode` impl writes
the header followed by the command body. The `ppm_reset` module is not
present under src/; its `Args` is modelled from the spec (a unit argument
type encoded as 6 bytes of padding, exactly like `cancel::Args` and
`get_capability::Args`, whose decode calls `ppm::Command::decode` performs
for the same 8-byte mailbox). -/

/-- `ppm::Command::encode` — the 6 argument bytes, no header. -/
def encodePpmCommandArgs : PpmCommand → List Nat
  | .ppmReset => List.replicate 6 0
  | .cancel => List.replicate 6 0
  | .ackCcCi ack => ack :: List.replicate 5 0
  | .setNotificationEnable ne => bytesLE 4 ne ++ List.replicate 2 0
  | .getCapability => List.replicate 6 0

/-- `lpm::Command::encode` body (after the header): either a dedicated
connector-number byte followed by unit args, or argument bitfields that
embed the connector number themselves. `set_new_cam` masks the connector
number to 7 bits and packs `enter` into bit 7. -/
def encodeLpmCommandBody (c : LpmCommand) : List Nat :=
  match c.operation with
  | .connectorReset => c.port :: List.replicate 5 0
  | .getConnectorStatus => c.port :: List.replicate 5 0
  | .getConnectorCapability => c.port :: List.replicate 5 0
  | .setPowerLevel raw => bytesLE 6 raw
  | .setNewCam cn enter off spec =>
      (cn % 128 + if enter then 128 else 0) :: off :: bytesLE 4 spec
  | .getErrorStatus => c.port :: List.replicate 5 0
  | .setCcom raw => bytesLE 2 raw ++ List.replicate 4 0
  | .setUor raw => bytesLE 2 raw ++ List.replicate 4 0
  | .setPdr raw => bytesLE 2 raw ++ List.replicate 4 0
  | .getAlternateModes raw => bytesLE 4 raw ++ List.replicate 2 0
  | .getCamSupported => c.port :: List.replicate 5 0
  | .getCurrentCam => c.port :: List.replicate 5 0
  | .getPdos raw => bytesLE 4 raw ++ List.replicate 2 0
  | .getCableProperty => c.port :: List.replicate 5 0

/-- `lpm::Command::encode`: `CommandHeader::new(command_type, 0)` then the
body. -/
def encodeLpmCommand (c : LpmCommand) : List Nat :=
  encodeCommandHeader ⟨c.operation.commandType, 0⟩ ++ encodeLpmCommandBody c

/-! ## Command decoders -/

/-- Allowed list in `ppm::Command`'s decode error. -/
def allowedPpmOpcodes : List Nat := [0x01, 0x02, 0x04, 0x05, 0x06]

/-- `impl Decode<CommandHeader> for ppm::Command`: dispatch on the header's
command type; unit argument types still consume the 6 padding bytes. -/
def decodePpmCommand (ct : CommandType) (bs : List Nat) :
    Except DecodeErr (PpmCommand × List Nat) :=
  match ct with
  | .ppmReset =>
    match skipBytes 6 bs with
    | none => .error .unexpectedEnd
    | some rest => .ok (.ppmReset, rest)
  | .cancel =>
    match skipBytes 6 bs with
    | none => .error .unexpectedEnd
    | some rest => .ok (.cancel, rest)
  | .ackCcCi =>
    match bs with
    | [] => .error .unexpectedEnd
    | ack :: bs =>
      match skipBytes 5 bs with
      | none => .error .unexpectedEnd
      | some rest => .ok (.ackCcCi ack, rest)
  | .setNotificationEnable =>
    match readLE 4 bs with
    | none => .error .unexpectedEnd
    | some (ne, bs) =>
      match skipBytes 2 bs with
      | none => .error .unexpectedEnd
      | some rest => .ok (.setNotificationEnable ne, rest)
  | .getCapability =>
    match skipBytes 6 bs with
    | none => .error .unexpectedEnd
    | some rest => .ok (.getCapability, rest)
  | ct => .error (.unexpectedVariant "CommandType" allowedPpmOpcodes ct.toByte)

/-- Decode a dedicated connector-number byte plus 5 bytes of unit-args
padding, yielding the 7-bit connector number (`ConnectorNumberRaw`). -/
def decodePortThenPadding (bs : List Nat) : Except DecodeErr (Nat × List Nat) :=
  match bs with
  | [] => .error .unexpectedEnd
  | b :: bs =>
    match skipBytes 5 bs with
    | none => .error .unexpectedEnd
    | some rest => .ok (b % 128, rest)

/-- `impl Decode<CommandHeader> for lpm::Command`. Commands with a
dedicated connector-number byte mask it to 7 bits; commands whose
arguments embed the connector number take it from the argument bitfield.
`get_pdos` performs no argument validation (its decode bypasses
`TryFrom<ArgsRaw>`), while `get_alternate_modes` validates the recipient
and `set_power_level` validates the Type-C current field. -/
def decodeLpmCommand (ct : CommandType) (bs : List Nat) :
    Except DecodeErr (LpmCommand × List Nat) :=
  match ct with
  | .connectorReset =>
    (decodePortThenPadding bs).map fun p => (⟨p.1, .connectorReset⟩, p.2)
  | .getConnectorStatus =>
    (decodePortThenPadding bs).map fun p => (⟨p.1, .getConnectorStatus⟩, p.2)
  | .getConnectorCapability =>
    (decodePortThenPadding bs).map fun p => (⟨p.1, .getConnectorCapability⟩, p.2)
  | .setPowerLevel =>
    match readLE 6 bs with
    | none => .error .unexpectedEnd
    | some (raw, rest) =>
      match tryCurrentFromByte (getBits raw 16 3) with
      | .ok _ => .ok (⟨getBits raw 0 7, .setPowerLevel raw⟩, rest)
      | .error v => .error (.unexpectedVariant "Current" [0, 1, 2, 3] v)
  | .setNewCam =>
    match bs with
    | b :: off :: bs =>
      match readLE 4 bs with
      | none => .error .unexpectedEnd
      | some (spec, rest) =>
        .ok (⟨b % 128, .setNewCam (b % 128) (bitIsSet b 7) off spec⟩, rest)
    | _ => .error .unexpectedEnd
  | .getErrorStatus =>
    (decodePortThenPadding bs).map fun p => (⟨p.1, .getErrorStatus⟩, p.2)
  | .setCcom =>
    match readLE 2 bs with
    | none => .error .unexpectedEnd
    | some (raw, bs) =>
      match skipBytes 4 bs with
      | none => .error .unexpectedEnd
      | some rest => .ok (⟨getBits raw 0 7, .setCcom raw⟩, rest)
  | .setUor =>
    match readLE 2 bs with
    | none => .error .unexpectedEnd
    | some (raw, bs) =>
      match skipBytes 4 bs with
      | none => .error .unexpectedEnd
      | some rest => .ok (⟨getBits raw 0 7, .setUor raw⟩, rest)
  | .setPdr =>
    match readLE 2 bs with
    | none => .error .unexpectedEnd
    | some (raw, bs) =>
      match skipBytes 4 bs with
      | none => .error .unexpectedEnd
      | some rest => .ok (⟨getBits raw 0 7, .setPdr raw⟩, rest)
  | .getAlternateModes =>
    match readLE 4 bs with
    | none => .error .unexpectedEnd
    | some (raw, bs) =>
      match skipBytes 2 bs with
      | none => .error .unexpectedEnd
      | some rest =>
        match Recipient.tryFromByte (getBits raw 0 3) with
        | .ok _ => .ok (⟨getBits raw 8 7, .getAlternateModes raw⟩, rest)
        | .error v => .error (.unexpectedVariant "Recipient" [0, 1, 2, 3] v)
  | .getCamSupported =>
    (decodePortThenPadding bs).map fun p => (⟨p.1, .getCamSupported⟩, p.2)
  | .getCurrentCam =>
    (decodePortThenPadding bs).map fun p => (⟨p.1, .getCurrentCam⟩, p.2)
  | .getPdos =>
    match readLE 4 bs with
    | none => .error .unexpectedEnd
    | some (raw, bs) =>
      match skipBytes 2 bs with
      | none => .error .unexpectedEnd
      | some rest => .ok (⟨getBits raw 0 7, .getPdos raw⟩, rest)
  | .getCableProperty =>
    (decodePortThenPadding bs).map fun p => (⟨p.1, .getCableProperty⟩, p.2)
  | ct => .error (.unexpectedVariant "CommandType" [0x12] ct.toByte)

/-- `impl Decode for ucsi::Command`: decode the header, then re-enter with
it as context, dispatching PPM-level opcodes to the PPM decoder and
everything else to the LPM decoder. -/
def decodeCommand (bs : List Nat) : Except DecodeErr (Command × List Nat) :=
  match decodeCommandHeader bs with
  | .error e => .error e
  | .ok (h, rest) =>
    match h.command with
    | .ppmReset | .cancel | .getCapability | .ackCcCi | .setNotificationEnable =>
      (decodePpmCommand h.command rest).map fun p => (.ppm p.1, p.2)
    | _ => (decodeLpmCommand h.command rest).map fun p => (.lpm p.1, p.2)

/-! ## PPM state machine (src/ucsi/ppm/state_machine.rs) -/

/-- `state_machine::State`. -/
inductive PpmState where
  | idle (notificationEnabled : Bool)
  | busy (notificationEnabled : Bool)
  | processingCommand
  | waitForCommandCompleteAck
  deriving DecidableEq, Repr

/-- `state_machine::Input` (the command is held by reference in the
source; the embedding carries it by value). -/
inductive SmInput where
  | command (c : Command)
  | commandComplete
  | busyChanged
  deriving DecidableEq, Repr

/-- `state_machine::Output`. -/
inductive SmOutput where
  | executeCommand (c : Command)
  | opmNotifyCommandComplete
  | ackComplete (ack : Nat)
  | resetComplete
  | opmNotifyBusy
  deriving DecidableEq, Repr

/-- `state_machine::InvalidTransition`: the pre-call state and the
rejected input. -/
structure InvalidTransition where
  state : PpmState
  input : SmInput
  deriving DecidableEq, Repr

/-- `StateMachine::consume`: the transition match, arm for arm in source
order (first-match semantics in both languages). On success it yields the
next state and the optional output; on failure the state machine performs
no assignment, which the caller-side `stateAfter` reflects. -/
def consume (state : PpmState) (input : SmInput) :
    Except InvalidTransition (PpmState × Option SmOutput) :=
  match state, input with
  | _, .command (.ppm .ppmReset) => .ok (.idle false, some .resetComplete)
  | .idle false, .command (.ppm (.setNotificationEnable ne)) =>
    .ok (.processingCommand, some (.executeCommand (.ppm (.setNotificationEnable ne))))
  | .idle false, .busyChanged => .ok (.busy false, none)
  | .busy notificationEnabled, .busyChanged => .ok (.idle notificationEnabled, none)
  | .busy false, .commandComplete => .ok (.busy false, none)
  | .busy true, .commandComplete => .ok (.busy true, some .opmNotifyBusy)
  | .idle true, .busyChanged => .ok (.busy true, none)
  | .idle true, .command (.ppm (.ackCcCi ack)) =>
    if ackCommandComplete ack then
      .error ⟨.idle true, .command (.ppm (.ackCcCi ack))⟩
    else
      .ok (.processingCommand, some (.executeCommand (.ppm (.ackCcCi ack))))
  | .idle true, .command cmd => .ok (.processingCommand, some (.executeCommand cmd))
  | .processingCommand, .commandComplete =>
    .ok (.waitForCommandCompleteAck, some .opmNotifyCommandComplete)
  | .processingCommand, .command (.ppm .cancel) =>
    .ok (.waitForCommandCompleteAck, some .opmNotifyCommandComplete)
  | .waitForCommandCompleteAck, .command (.ppm (.ackCcCi ack)) =>
    if ackCommandComplete ack then
      .ok (.idle true, some (.ackComplete ack))
    else
      .error ⟨.waitForCommandCompleteAck, .command (.ppm (.ackCcCi ack))⟩
  | s, i => .error ⟨s, i⟩

/-- The state observed through `state()` after a `consume` call:
`self.state = next_state` runs only on the non-error path. -/
def stateAfter (s : PpmState) (i : SmInput) : PpmState :=
  match consume s i with
  | .ok (next, _) => next
  | .error _ => s

/-- Modelled from the spec: the transition table of section 4.4 plus the
universal reset rule, as a predicate on (state, input) pairs. This is the
specification-side description that `consume` is compared against; it is
deliberately written from the table rows, not from the code. -/
def specAllowed (s : PpmState) (i : SmInput) : Bool :=
  match s, i with
  | _, .command (.ppm .ppmReset) => true
  | .idle false, .command (.ppm (.setNotificationEnable _)) => true
  | .idle false, .busyChanged => true
  | .busy _, .busyChanged => true
  | .busy _, .commandComplete => true
  | .idle true, .busyChanged => true
  | .idle true, .command (.ppm (.ackCcCi ack)) => !ackCommandComplete ack
  | .idle true, .command _ => true
  | .processingCommand, .commandComplete => true
  | .processingCommand, .command (.ppm .cancel) => true
  | .waitForCommandCompleteAck, .command (.ppm (.ackCcCi ack)) => ackCommandComplete ack
  | _, _ => false

/-! ## Response enumerations (src/ucsi/lpm/get_connector_status.rs and
friends) -/

/-- `PowerRole` (src/lib.rs). -/
inductive PowerRole where
  | sink | source
  deriving DecidableEq, Repr

/-- `PlugOrientation` (src/lib.rs). -/
inductive PlugOrientation where
  | cc1 | cc2
  deriving DecidableEq, Repr

/-- `get_connector_status::PowerOperationMode`. -/
inductive PowerOperationMode where
  | usbDefault | bc | pd | typeC1A5 | typeC3A | typeC5A
  deriving DecidableEq, Repr

def PowerOperationMode.toByte : PowerOperationMode → Nat
  | .usbDefault => 0x1
  | .bc => 0x2
  | .pd => 0x3
  | .typeC1A5 => 0x4
  | .typeC3A => 0x5
  | .typeC5A => 0x6

/-- `TryFrom<u8> for PowerOperationMode`. -/
def PowerOperationMode.tryFromByte (value : Nat) : Except Nat PowerOperationMode :=
  match value with
  | 0x1 => .ok .usbDefault
  | 0x2 => .ok .bc
  | 0x3 => .ok .pd
  | 0x4 => .ok .typeC1A5
  | 0x5 => .ok .typeC3A
  | 0x6 => .ok .typeC5A
  | v => .error v

/-- `get_connector_status::ConnectorPartnerType`. -/
inductive ConnectorPartnerType where
  | dfpAttached | ufpAttached | poweredCableNoUfp | poweredCableUfp
  | debugAccessory | audioAdapterAccessory
  deriving DecidableEq, Repr

def ConnectorPartnerType.toByte : ConnectorPartnerType → Nat
  | .dfpAttached => 0x1
  | .ufpAttached => 0x2
  | .poweredCableNoUfp => 0x3
  | .poweredCableUfp => 0x4
  | .debugAccessory => 0x5
  | .audioAdapterAccessory => 0x6

/-- `TryFrom<u8> for ConnectorPartnerType`. -/
def ConnectorPartnerType.tryFromByte (value : Nat) : Except Nat ConnectorPartnerType :=
  match value with
  | 0x1 => .ok .dfpAttached
  | 0x2 => .ok .ufpAttached
  | 0x3 => .ok .poweredCableNoUfp
  | 0x4 => .ok .poweredCableUfp
  | 0x5 => .ok .debugAccessory
  | 0x6 => .ok .audioAdapterAccessory
  | v => .error v

/-- `get_connector_status::BatteryChargingCapabilityStatus`. -/
inductive BatteryChargingCapabilityStatus where
  | notCharging | nominal | slow | verySlow
  deriving DecidableEq, Repr

def BatteryChargingCapabilityStatus.toByte : BatteryChargingCapabilityStatus → Nat
  | .notCharging => 0x0
  | .nominal => 0x1
  | .slow => 0x2
  | .verySlow => 0x3

/-- `TryFrom<u8> for BatteryChargingCapabilityStatus`. -/
def BatteryChargingCapabilityStatus.tryFromByte (value : Nat) :
    Except Nat BatteryChargingCapabilityStatus :=
  match value with
  | 0x0 => .ok .notCharging
  | 0x1 => .ok .nominal
  | 0x2 => .ok .slow
  | 0x3 => .ok .verySlow
  | v => .error v

/-! ## GET_CONNECTOR_STATUS response (src/ucsi/lpm/get_connector_status.rs)

`ResponseDataRaw` is a 19-byte `[u8]` bitfield; the backing bytes are
assembled little-endian into one `Nat`, on which the declared bit ranges
become `getBits` calls. `ConnectorStatusChange`, `ConnectorPartnerFlags`
and `ProviderCapsLimitedReason` wrap raw integers and are kept raw. -/

/-- `ConnectorStatusChange::external_supply_change` — bit 1. -/
def statusChangeExternalSupplyChange (raw : Nat) : Bool := bitIsSet raw 1

/-- `ConnectorStatusChange::error` — bit 15. -/
def statusChangeError (raw : Nat) : Bool := bitIsSet raw 15

/-- `get_connector_status::ConnectedStatus`. -/
structure ConnectedStatus where
  powerOpMode : PowerOperationMode
  powerDirection : PowerRole
  partnerFlags : Nat
  partnerType : ConnectorPartnerType
  rdo : Option Nat
  batteryChargingStatus : Option BatteryChargingCapabilityStatus
  providerCapsLimited : Option Nat
  bcdPdVersion : Option Nat
  orientation : PlugOrientation
  sinkPathStatus : Bool
  deriving DecidableEq, Repr

/-- `get_connector_status::PowerReading`. -/
structure PowerReading where
  scaleMa : Nat
  peakCurrentMa : Nat
  avgCurrentMa : Nat
  scaleMv : Nat
  voltageReadingMv : Nat
  deriving DecidableEq, Repr

/-- `get_connector_status::ResponseData`. -/
structure GcsResponseData where
  statusChange : Nat
  connectStatus : Bool
  status : Option ConnectedStatus
  reverseCurrentProtectionStatus : Bool
  powerReading : Option PowerReading
  deriving DecidableEq, Repr

/-- `TryFrom<[u8; 19]> for get_connector_status::ResponseData`, on the
little-endian assembled 152-bit value. The two in-range `u16`
multiplications `peak_current * scale` and similar are performed modulo
`2 ^ 16` (`u16` arithmetic). Sub-field errors are mapped through
`From<InvalidResponseData> for DecodeError` to the `UnexpectedVariant`
payloads the source spells out. -/
def gcsTryFrom (v : Nat) : Except DecodeErr GcsResponseData :=
  let statusChange := getBits v 0 16
  let connectStatus := bitIsSet v 19
  let statusE : Except DecodeErr (Option ConnectedStatus) :=
    if connectStatus then
      match PowerOperationMode.tryFromByte (getBits v 16 3) with
      | .error e => .error (.unexpectedVariant "PowerOperationMode" [1, 2, 3, 4, 5, 6] e)
      | .ok powerOpMode =>
        let powerDirection := if bitIsSet v 20 then PowerRole.source else PowerRole.sink
        let partnerFlags := getBits v 21 8
        match ConnectorPartnerType.tryFromByte (getBits v 29 3) with
        | .error e => .error (.unexpectedVariant "ConnectorPartnerType" [1, 2, 3, 4, 5, 6] e)
        | .ok partnerType =>
          let rdo :=
            if connectStatus && (powerOpMode = PowerOperationMode.pd) && getBits v 32 32 ≠ 0 then
              some (getBits v 32 32)
            else
              none
          let batteryE : Except DecodeErr (Option BatteryChargingCapabilityStatus) :=
            if powerDirection = PowerRole.sink then
              match BatteryChargingCapabilityStatus.tryFromByte (getBits v 64 2) with
              | .error e =>
                .error (.unexpectedVariant "BatteryChargingCapabilityStatus" [0, 1, 2, 3] e)
              | .ok b => .ok (some b)
            else
              .ok none
          match batteryE with
          | .error e => .error e
          | .ok batteryChargingStatus =>
            let providerCapsLimited :=
              if getBits v 66 4 ≠ 0 then some (getBits v 66 4) else none
            let bcdPdVersion :=
              if connectStatus && (powerOpMode = PowerOperationMode.pd) then
                some (getBits v 70 16)
              else
                none
            let orientation := if bitIsSet v 86 then PlugOrientation.cc2 else PlugOrientation.cc1
            let sinkPathStatus := bitIsSet v 87
            .ok (some
              { powerOpMode, powerDirection, partnerFlags, partnerType, rdo,
                batteryChargingStatus, providerCapsLimited, bcdPdVersion,
                orientation, sinkPathStatus })
    else
      .ok none
  match statusE with
  | .error e => .error e
  | .ok status =>
    let reverseCurrentProtectionStatus := bitIsSet v 88
    let powerReading :=
      if bitIsSet v 89 then
        let currentScale := getBits v 90 3 * 5
        let voltageScale := getBits v 125 4 * 5
        some
          { scaleMa := currentScale,
            peakCurrentMa := getBits v 93 16 * currentScale % 2 ^ 16,
            avgCurrentMa := getBits v 109 16 * currentScale % 2 ^ 16,
            scaleMv := voltageScale,
            voltageReadingMv := getBits v 129 16 * voltageScale % 2 ^ 16 : PowerReading }
      else
        none
    .ok { statusChange, connectStatus, status, reverseCurrentProtectionStatus, powerReading }

/-- `impl Decode for get_connector_status::ResponseData`: 19 bytes then
`try_from`. -/
def decodeGcsResponse (bs : List Nat) : Except DecodeErr (GcsResponseData × List Nat) :=
  match readLE 19 bs with
  | none => .error .unexpectedEnd
  | some (v, rest) =>
    match gcsTryFrom v with
    | .error e => .error e
    | .ok d => .ok (d, rest)

/-- `From<get_connector_status::ResponseData> for [u8; 19]`: the setter
chain on a zeroed raw buffer, followed by the little-endian byte dump.
Rust `u16` division by a zero scale would panic; Lean division by zero
yields 0 (canonical power readings have nonzero scales, where the two
agree). -/
def encodeGcsResponse (d : GcsResponseData) : List Nat :=
  let v := setBits 0 0 16 d.statusChange
  let v := setBits v 19 1 (if d.connectStatus then 1 else 0)
  let v :=
    match d.status with
    | none => v
    | some st =>
      let v := setBits v 16 3 st.powerOpMode.toByte
      let v := setBits v 20 1 (if st.powerDirection = PowerRole.source then 1 else 0)
      let v := setBits v 21 8 st.partnerFlags
      let v := setBits v 29 3 st.partnerType.toByte
      let v :=
        match st.rdo with
        | some rdo => if rdo ≠ 0 then setBits v 32 32 rdo else v
        | none => v
      let v :=
        match st.batteryChargingStatus with
        | some b => setBits v 64 2 b.toByte
        | none => v
      let v :=
        match st.providerCapsLimited with
        | some p => setBits v 66 4 p
        | none => v
      let v :=
        match st.bcdPdVersion with
        | some b => setBits v 70 16 b
        | none => v
      let v := setBits v 86 1 (if st.orientation = PlugOrientation.cc2 then 1 else 0)
      setBits v 87 1 (if st.sinkPathStatus then 1 else 0)
  let v := setBits v 88 1 (if d.reverseCurrentProtectionStatus then 1 else 0)
  let v :=
    match d.powerReading with
    | some pr =>
      let v := setBits v 89 1 1
      let v := setBits v 90 3 (pr.scaleMa / 5 % 256)
      let v := setBits v 93 16 (pr.peakCurrentMa / pr.scaleMa)
      let v := setBits v 109 16 (pr.avgCurrentMa / pr.scaleMa)
      let v := setBits v 125 4 (pr.scaleMv / 5 % 256)
      setBits v 129 16 (pr.voltageReadingMv / pr.scaleMv)
    | none => setBits v 89 1 0
  bytesLE 19 v

/-! ## GET_CAPABILITY response (src/ucsi/ppm/get_capability.rs)

`Attributes` and `OptionalFeatures` wrap raw `u32` backing integers and
are kept raw; `OptionalFeatures` occupies only 3 wire bytes (lower `u16`
plus one more byte), so its raw value is truncated to 24 bits on encode. -/

structure GetCapabilityResponse where
  attributes : Nat
  numConnectors : Nat
  optionalFeatures : Nat
  numAltModes : Nat
  bcdBatteryChargingSpec : Nat
  bcdUsbPdSpec : Nat
  bcdTypeCSpec : Nat
  deriving DecidableEq, Repr

/-- `impl Encode for get_capability::ResponseData` (16 bytes, one
reserved zero byte after `num_alt_modes`). -/
def encodeGetCapabilityResponse (r : GetCapabilityResponse) : List Nat :=
  bytesLE 4 r.attributes ++ [r.numConnectors] ++
  bytesLE 2 (r.optionalFeatures % 2 ^ 16) ++ [r.optionalFeatures >>> 16 % 256] ++
  [r.numAltModes, 0] ++
  bytesLE 2 r.bcdBatteryChargingSpec ++ bytesLE 2 r.bcdUsbPdSpec ++
  bytesLE 2 r.bcdTypeCSpec

/-- `impl Decode for get_capability::ResponseData`. -/
def decodeGetCapabilityResponse (bs : List Nat) :
    Except DecodeErr (GetCapabilityResponse × List Nat) :=
  match readLE 4 bs with
  | none => .error .unexpectedEnd
  | some (attributes, bs) =>
    match bs with
    | numConnectors :: bs =>
      match readLE 2 bs with
      | none => .error .unexpectedEnd
      | some (lower, bs) =>
        match bs with
        | upper :: numAltModes :: _reserved :: bs =>
          match readLE 2 bs with
          | none => .error .unexpectedEnd
          | some (bcdBatteryChargingSpec, bs) =>
            match readLE 2 bs with
            | none => .error .unexpectedEnd
            | some (bcdUsbPdSpec, bs) =>
              match readLE 2 bs with
              | none => .error .unexpectedEnd
              | some (bcdTypeCSpec, rest) =>
                .ok ({ attributes, numConnectors,
                       optionalFeatures := upper * 2 ^ 16 + lower, numAltModes,
                       bcdBatteryChargingSpec, bcdUsbPdSpec, bcdTypeCSpec }, rest)
        | _ => .error .unexpectedEnd
    | [] => .error .unexpectedEnd

/-! ## GET_ALTERNATE_MODES response (src/ucsi/lpm/get_alternate_modes.rs) -/

/-- `get_alternate_modes::AltMode`: an SVID (`u16`) and an alt-mode id
(`u32`). -/
structure AltMode where
  svid : Nat
  mid : Nat
  deriving DecidableEq, Repr

/-- `impl Encode for get_alternate_modes::ResponseData`: each of the two
entries as `svid` then `mid`. -/
def encodeAltModesResponse (modes : List AltMode) : List Nat :=
  (modes.map fun m => bytesLE 2 m.svid ++ bytesLE 4 m.mid).flatten

/-- `impl Decode for get_alternate_modes::ResponseData` (exactly two
entries). -/
def decodeAltModesResponse (bs : List Nat) :
    Except DecodeErr (List AltMode × List Nat) :=
  match readLE 2 bs with
  | none => .error .unexpectedEnd
  | some (svid0, bs) =>
    match readLE 4 bs with
    | none => .error .unexpectedEnd
    | some (mid0, bs) =>
      match readLE 2 bs with
      | none => .error .unexpectedEnd
      | some (svid1, bs) =>
        match readLE 4 bs with
        | none => .error .unexpectedEnd
        | some (mid1, rest) => .ok ([⟨svid0, mid0⟩, ⟨svid1, mid1⟩], rest)

/-! ## GET_PDOS response (src/ucsi/lpm/get_pdos.rs)

`ResponseData` holds `[u32; 4]`; encoding writes entries until the first
zero PDO, decoding always reads four. -/

/-- `impl Encode for get_pdos::ResponseData`. -/
def encodeGetPdosResponse (raw : List Nat) : List Nat :=
  ((raw.takeWhile fun pdo => pdo ≠ 0).map (bytesLE 4)).flatten

/-- `impl Decode for get_pdos::ResponseData`. -/
def decodeGetPdosResponse (bs : List Nat) : Except DecodeErr (List Nat × List Nat) :=
  match readLE 4 bs with
  | none => .error .unexpectedEnd
  | some (p0, bs) =>
    match readLE 4 bs with
    | none => .error .unexpectedEnd
    | some (p1, bs) =>
      match readLE 4 bs with
      | none => .error .unexpectedEnd
      | some (p2, bs) =>
        match readLE 4 bs with
        | none => .error .unexpectedEnd
        | some (p3, rest) => .ok ([p0, p1, p2, p3], rest)

/-! ## GET_CABLE_PROPERTY response (src/ucsi/lpm/get_cable_property.rs) -/

/-- `get_cable_property::SpeedSupported`: a 2-bit unit selector plus a
14-bit value. -/
inductive SpeedSupported where
  | bps (v : Nat)
  | kbps (v : Nat)
  | mbps (v : Nat)
  | gbps (v : Nat)
  deriving DecidableEq, Repr

/-- `From<u16> for SpeedSupported`. -/
def SpeedSupported.fromU16 (raw : Nat) : SpeedSupported :=
  match raw % 4 with
  | 0 => .bps (getBits raw 2 14)
  | 1 => .kbps (getBits raw 2 14)
  | 2 => .mbps (getBits raw 2 14)
  | _ => .gbps (getBits raw 2 14)

/-- `From<SpeedSupported> for u16` (the value setter masks to 14 bits). -/
def SpeedSupported.toU16 : SpeedSupported → Nat
  | .bps v => 0 + v % 2 ^ 14 * 4
  | .kbps v => 1 + v % 2 ^ 14 * 4
  | .mbps v => 2 + v % 2 ^ 14 * 4
  | .gbps v => 3 + v % 2 ^ 14 * 4

/-- `get_cable_property::PlugEndType`. -/
inductive PlugEndType where
  | typeA | typeB | typeC | other
  deriving DecidableEq, Repr

/-- `From<u8> for PlugEndType` (total: the value is masked to 2 bits). -/
def PlugEndType.fromByte (value : Nat) : PlugEndType :=
  match value % 4 with
  | 0x0 => .typeA
  | 0x1 => .typeB
  | 0x2 => .typeC
  | _ => .other

def PlugEndType.toByte : PlugEndType → Nat
  | .typeA => 0x0
  | .typeB => 0x1
  | .typeC => 0x2
  | .other => 0x3

/-- `get_cable_property::ResponseData`. -/
structure CablePropertyResponse where
  speedSupported : SpeedSupported
  currentCapability : Nat
  vbusInCable : Bool
  activeCable : Bool
  directionalityConfigurable : Bool
  plugEndType : PlugEndType
  altModeSupported : Bool
  cablePdMajor : Nat
  latency : Nat
  deriving DecidableEq, Repr

/-- `From<[u8; 5]> for get_cable_property::ResponseData` on the
little-endian assembled 40-bit value (current capability is in 50 mA
units). -/
def cablePropertyFrom (v : Nat) : CablePropertyResponse :=
  { speedSupported := SpeedSupported.fromU16 (getBits v 0 16),
    currentCapability := getBits v 16 8 * 50,
    vbusInCable := bitIsSet v 24,
    activeCable := bitIsSet v 25,
    directionalityConfigurable := bitIsSet v 26,
    plugEndType := PlugEndType.fromByte (getBits v 27 2),
    altModeSupported := bitIsSet v 29,
    cablePdMajor := getBits v 30 2,
    latency := getBits v 32 4 }

/-- `From<get_cable_property::ResponseData> for [u8; 5]`. -/
def encodeCablePropertyResponse (d : CablePropertyResponse) : List Nat :=
  let v := setBits 0 0 16 d.speedSupported.toU16
  let v := setBits v 16 8 (d.currentCapability / 50 % 256)
  let v := setBits v 24 1 (if d.vbusInCable then 1 else 0)
  let v := setBits v 25 1 (if d.activeCable then 1 else 0)
  let v := setBits v 26 1 (if d.directionalityConfigurable then 1 else 0)
  let v := setBits v 27 2 d.plugEndType.toByte
  let v := setBits v 29 1 (if d.altModeSupported then 1 else 0)
  let v := setBits v 30 2 d.cablePdMajor
  let v := setBits v 32 4 d.latency
  bytesLE 5 v

/-- `impl Decode for get_cable_property::ResponseData`. -/
def decodeCablePropertyResponse (bs : List Nat) :
    Except DecodeErr (CablePropertyResponse × List Nat) :=
  match readLE 5 bs with
  | none => .error .unexpectedEnd
  | some (v, rest) => .ok (cablePropertyFrom v, rest)

/-! ## Response unions (src/ucsi/ppm/mod.rs, src/ucsi/lpm/mod.rs,
src/ucsi/mod.rs) -/

/-- `ppm::ResponseData`. -/
inductive PpmResponseData where
  | getCapability (d : GetCapabilityResponse)
  deriving DecidableEq, Repr

/-- `lpm::ResponseData`: `connectorReset` carries no payload, the
remaining variants carry their module's response structure
(`get_connector_capability`, `get_cam_supported`, `get_current_cam` and
`get_error_status` responses are raw pass-through values). -/
inductive LpmResponseData where
  | connectorReset
  | getConnectorStatus (d : GcsResponseData)
  | getConnectorCapability (raw : Nat)
  | getErrorStatus (information : Nat) (vendor : List Nat)
  | getAlternateModes (modes : List AltMode)
  | getCamSupported (altModes : Nat)
  | getCurrentCam (altModes : List Nat)
  | getPdos (raw : List Nat)
  | getCableProperty (d : CablePropertyResponse)
  deriving DecidableEq, Repr

/-- `impl Encode for ppm::ResponseData`. -/
def encodePpmResponse : PpmResponseData → List Nat
  | .getCapability d => encodeGetCapabilityResponse d

/-- `impl Decode<CommandType> for ppm::ResponseData`. -/
def decodePpmResponse (ct : CommandType) (bs : List Nat) :
    Except DecodeErr (PpmResponseData × List Nat) :=
  match ct with
  | .getCapability => (decodeGetCapabilityResponse bs).map fun p => (.getCapability p.1, p.2)
  | ct => .error (.unexpectedVariant "CommandType" [0x06] ct.toByte)

/-- `impl Encode for lpm::ResponseData`. -/
def encodeLpmResponse : LpmResponseData → List Nat
  | .connectorReset => []
  | .getConnectorStatus d => encodeGcsResponse d
  | .getConnectorCapability raw => bytesLE 4 raw
  | .getErrorStatus information vendor => bytesLE 2 information ++ vendor
  | .getAlternateModes modes => encodeAltModesResponse modes
  | .getCamSupported altModes => [altModes]
  | .getCurrentCam altModes => altModes
  | .getPdos raw => encodeGetPdosResponse raw
  | .getCableProperty d => encodeCablePropertyResponse d

/-- `impl Decode<CommandType> for lpm::ResponseData`: a `ConnectorReset`
context succeeds immediately without consuming bytes; the unexpected
context error spells out only `GetConnectorStatus` as allowed exactly as
the source does. -/
def decodeLpmResponse (ct : CommandType) (bs : List Nat) :
    Except DecodeErr (LpmResponseData × List Nat) :=
  match ct with
  | .connectorReset => .ok (.connectorReset, bs)
  | .getConnectorStatus => (decodeGcsResponse bs).map fun p => (.getConnectorStatus p.1, p.2)
  | .getConnectorCapability =>
    match readLE 4 bs with
    | none => .error .unexpectedEnd
    | some (raw, rest) => .ok (.getConnectorCapability raw, rest)
  | .getErrorStatus =>
    match readLE 2 bs with
    | none => .error .unexpectedEnd
    | some (information, bs) =>
      match takeBytes 14 bs with
      | none => .error .unexpectedEnd
      | some (vendor, rest) => .ok (.getErrorStatus information vendor, rest)
  | .getAlternateModes => (decodeAltModesResponse bs).map fun p => (.getAlternateModes p.1, p.2)
  | .getCamSupported =>
    match bs with
    | [] => .error .unexpectedEnd
    | b :: rest => .ok (.getCamSupported b, rest)
  | .getCurrentCam =>
    match takeBytes 16 bs with
    | none => .error .unexpectedEnd
    | some (altModes, rest) => .ok (.getCurrentCam altModes, rest)
  | .getPdos => (decodeGetPdosResponse bs).map fun p => (.getPdos p.1, p.2)
  | .getCableProperty => (decodeCablePropertyResponse bs).map fun p => (.getCableProperty p.1, p.2)
  | ct => .error (.unexpectedVariant "CommandType" [0x12] ct.toByte)

/-- `ucsi::ResponseData`. -/
inductive ResponseData where
  | ppm (d : PpmResponseData)
  | lpm (d : LpmResponseData)
  deriving DecidableEq, Repr

/-- `impl Encode for ucsi::ResponseData`. -/
def encodeResponseData : ResponseData → List Nat
  | .ppm d => encodePpmResponse d
  | .lpm d => encodeLpmResponse d

/-- Response decoding with a `CommandType` context. The source implements
`Decode<CommandType>` separately for `ppm::ResponseData` and
`lpm::ResponseData`; this router selects the layer by the same PPM-opcode
set that `ucsi::Command::decode` uses on the command side. -/
def decodeResponseData (ct : CommandType) (bs : List Nat) :
    Except DecodeErr (ResponseData × List Nat) :=
  match ct with
  | .ppmReset | .cancel | .getCapability | .ackCcCi | .setNotificationEnable =>
    (decodePpmResponse ct bs).map fun p => (.ppm p.1, p.2)
  | _ => (decodeLpmResponse ct bs).map fun p => (.lpm p.1, p.2)

/-- The command types for which some byte buffer decodes successfully as a
response: the variants actually present in the two `ResponseData` unions. -/
def decodableResponseTypes : List CommandType :=
  [.getCapability, .connectorReset, .getConnectorStatus, .getConnectorCapability,
   .getErrorStatus, .getAlternateModes, .getCamSupported, .getCurrentCam,
   .getPdos, .getCableProperty]

/-- The command types with `has_response() == true` but no `ResponseData`
variant (response decoding always fails for them). -/
def missingResponseVariantTypes : List CommandType :=
  [.setPdm, .setPowerLevel, .getPdMessage, .getAttentionVdo, .getCamCs,
   .lpmFwUpdateRequest, .securityRequest, .setRetimerMode, .setSinkPath,
   .setPdos, .readPowerLevel, .chunkingSupport, .setUsb, .getLpmPpmInfo]

/-! ## Concrete vectors used by the theorems -/

/-- The 19-byte GET_CONNECTOR_STATUS response of the spec's concrete
scenario. -/
def scenarioGcsBytes : List Nat :=
  [0x01, 0x80, 0x0B, 0x21, 0x12, 0x34, 0x56, 0x78, 0x05, 0xC0, 0xC0, 0x07,
   0x01, 0x20, 0x00, 0x20, 0x04, 0x00, 0x00]

/-- What `decodeGcsResponse` produces on `scenarioGcsBytes`. -/
def scenarioGcsExpected : GcsResponseData :=
  { statusChange := 0x8001,
    connectStatus := true,
    status := some
      { powerOpMode := .pd,
        powerDirection := .sink,
        partnerFlags := 8,
        partnerType := .dfpAttached,
        rdo := some 0x78563412,
        batteryChargingStatus := some .nominal,
        providerCapsLimited := some 0x1,
        bcdPdVersion := some 0x300,
        orientation := .cc2,
        sinkPathStatus := true },
    reverseCurrentProtectionStatus := true,
    powerReading := some
      { scaleMa := 5, peakCurrentMa := 40, avgCurrentMa := 5,
        scaleMv := 5, voltageReadingMv := 10 } }

/-- Minimal GET_CONNECTOR_STATUS response value (all fields empty). -/
def gcsMinimal : GcsResponseData :=
  { statusChange := 0, connectStatus := false, status := none,
    reverseCurrentProtectionStatus := false, powerReading := none }

/-- Maximally populated canonical GET_CONNECTOR_STATUS response value:
every field present at its largest wire-representable value, power-reading
currents multiples of the 35 mA scale and the voltage a multiple of the
75 mV scale. -/
def gcsMaximal : GcsResponseData :=
  { statusChange := 0xFFFF, connectStatus := true,
    status := some
      { powerOpMode := .pd, powerDirection := .sink, partnerFlags := 0xFF,
        partnerType := .audioAdapterAccessory, rdo := some 0xFFFFFFFF,
        batteryChargingStatus := some .verySlow, providerCapsLimited := some 0xF,
        bcdPdVersion := some 0xFFFF, orientation := .cc2, sinkPathStatus := true },
    reverseCurrentProtectionStatus := true,
    powerReading := some
      { scaleMa := 35, peakCurrentMa := 65520, avgCurrentMa := 65520,
        scaleMv := 75, voltageReadingMv := 65475 } }

/-- Minimal GET_CAPABILITY response value. -/
def capMinimal : GetCapabilityResponse :=
  { attributes := 0, numConnectors := 0, optionalFeatures := 0, numAltModes := 0,
    bcdBatteryChargingSpec := 0, bcdUsbPdSpec := 0, bcdTypeCSpec := 0 }

/-- Maximally populated GET_CAPABILITY response value (the optional
features occupy only 24 wire bits). -/
def capMaximal : GetCapabilityResponse :=
  { attributes := 0xFFFFFFFF, numConnectors := 0xFF, optionalFeatures := 0xFFFFFF,
    numAltModes := 0xFF, bcdBatteryChargingSpec := 0xFFFF, bcdUsbPdSpec := 0xFFFF,
    bcdTypeCSpec := 0xFFFF }

/-- Minimal GET_CABLE_PROPERTY response value. -/
def cableMinimal : CablePropertyResponse :=
  { speedSupported := .bps 0, currentCapability := 0, vbusInCable := false,
    activeCable := false, directionalityConfigurable := false, plugEndType := .typeA,
    altModeSupported := false, cablePdMajor := 0, latency := 0 }

/-- Maximally populated canonical GET_CABLE_PROPERTY response value
(current capability a multiple of the 50 mA unit, 14-bit speed value,
4-bit latency). -/
def cableMaximal : CablePropertyResponse :=
  { speedSupported := .gbps 0x3FFF, currentCapability := 12750, vbusInCable := true,
    activeCable := true, directionalityConfigurable := true, plugEndType := .other,
    altModeSupported := true, cablePdMajor := 3, latency := 15 }

instance {ε α : Type} [DecidableEq ε] [DecidableEq α] : DecidableEq (Except ε α) :=
  fun a b =>
    match a, b with
    | .ok x, .ok y =>
      if h : x = y then .isTrue (by rw [h]) else .isFalse (by simp [h])
    | .error x, .error y =>
      if h : x = y then .isTrue (by rw [h]) else .isFalse (by simp [h])
    | .ok _, .error _ => .isFalse (by simp)
    | .error _, .ok _ => .isFalse (by simp)

/-! ## State machine theorems -/

/-- C1: from every state of the PPM state machine — Idle(false),
Idle(true), Busy(false), Busy(true), ProcessingCommand and
WaitForCommandCompleteAck — consuming a PpmReset command returns
`Ok(Some(ResetComplete))` and the observed state afterwards is
`Idle(false)`; the reset arm is the first of the transition match, so it
applies before every other rule. -/
theorem ppm_reset_universal (s : PpmState) :
    consume s (.command (.ppm .ppmReset)) = .ok (.idle false, some .resetComplete) ∧
    stateAfter s (.command (.ppm .ppmReset)) = .idle false := by
  rcases s with nb | nb | _ | _ <;> (try rcases nb with _ | _) <;> exact ⟨rfl, rfl⟩

/-- C2: every (state, input) pair outside the transition table of spec
section 4.4 (with the universal reset rule) is rejected with
`InvalidTransition` carrying exactly the pre-call state and the offending
input, and the state observed afterwards is unchanged. -/
theorem invalid_pairs_rejected (s : PpmState) (i : SmInput)
    (h : specAllowed s i = false) :
    consume s i = .error ⟨s, i⟩ ∧ stateAfter s i = s := by
  have hc : consume s i = .error ⟨s, i⟩ := by
    rcases i with c | _ | _
    · rcases c with pc | lc
      · rcases pc with _ | _ | ack | ne | _ <;>
          rcases s with nb | nb | _ | _ <;> (try rcases nb with _ | _) <;>
          simp_all [specAllowed, consume]
      · rcases s with nb | nb | _ | _ <;> (try rcases nb with _ | _) <;>
          simp_all [specAllowed, consume]
    · rcases s with nb | nb | _ | _ <;> (try rcases nb with _ | _) <;>
        simp_all [specAllowed, consume]
    · rcases s with nb | nb | _ | _ <;> (try rcases nb with _ | _) <;>
        simp_all [specAllowed, consume]
  exact ⟨hc, by simp [stateAfter, hc]⟩

/-- C2 witness: a concrete pair outside the table (GetCapability while
ProcessingCommand) is rejected with the exact state and input, leaving the
state unchanged. -/
theorem invalid_pairs_rejected_witness :
    specAllowed .processingCommand (.command (.ppm .getCapability)) = false ∧
    consume .processingCommand (.command (.ppm .getCapability)) =
      .error ⟨.processingCommand, .command (.ppm .getCapability)⟩ ∧
    stateAfter .processingCommand (.command (.ppm .getCapability)) = .processingCommand :=
  ⟨by decide,
   (invalid_pairs_rejected .processingCommand (.command (.ppm .getCapability)) (by decide)).1,
   (invalid_pairs_rejected .processingCommand (.command (.ppm .getCapability)) (by decide)).2⟩

/-- C3: an AckCcCi whose ack has the command-complete bit set is accepted
exactly in WaitForCommandCompleteAck, transitioning to Idle(true) with an
AckComplete output carrying that ack, and is rejected in every other
state; an AckCcCi with the command-complete bit clear and the
connector-change bit set is accepted from Idle(true), transitioning to
ProcessingCommand with an ExecuteCommand output. -/
theorem ack_legality :
    (∀ ack : Nat, ackCommandComplete ack = true →
      consume .waitForCommandCompleteAck (.command (.ppm (.ackCcCi ack))) =
        .ok (.idle true, some (.ackComplete ack))) ∧
    (∀ (s : PpmState) (ack : Nat), ackCommandComplete ack = true →
      s ≠ .waitForCommandCompleteAck →
      consume s (.command (.ppm (.ackCcCi ack))) =
        .error ⟨s, .command (.ppm (.ackCcCi ack))⟩) ∧
    (∀ ack : Nat, ackCommandComplete ack = false → ackConnectorChange ack = true →
      consume (.idle true) (.command (.ppm (.ackCcCi ack))) =
        .ok (.processingCommand, some (.executeCommand (.ppm (.ackCcCi ack))))) := by
  refine ⟨fun ack h => by simp [consume, h], ?_, fun ack h _ => by simp [consume, h]⟩
  intro s ack h hs
  rcases s with nb | nb | _ | _ <;> (try rcases nb with _ | _) <;>
    simp_all [consume]

/-- C3 witness: ack value 2 (command-complete bit) is accepted in
WaitForCommandCompleteAck and rejected in Busy(true); ack value 1
(connector-change bit only) is accepted from Idle(true). -/
theorem ack_legality_witness :
    consume .waitForCommandCompleteAck (.command (.ppm (.ackCcCi 2))) =
      .ok (.idle true, some (.ackComplete 2)) ∧
    consume (.busy true) (.command (.ppm (.ackCcCi 2))) =
      .error ⟨.busy true, .command (.ppm (.ackCcCi 2))⟩ ∧
    consume (.idle true) (.command (.ppm (.ackCcCi 1))) =
      .ok (.processingCommand, some (.executeCommand (.ppm (.ackCcCi 1)))) :=
  ⟨ack_legality.1 2 (by decide),
   ack_legality.2.1 (.busy true) 2 (by decide) (by decide),
   ack_legality.2.2 1 (by decide) (by decide)⟩

/-- C4 counterexample: in Idle(false) the PpmReset command — which is
neither SetNotificationEnable nor the busy-changed event — is accepted
(the universal reset arm fires), so "every other command consumed in
Idle(false) is rejected with InvalidTransition" is false as stated. -/
theorem idle_false_reset_accepted :
    consume (.idle false) (.command (.ppm .ppmReset)) =
      .ok (.idle false, some .resetComplete) ∧
    consume (.idle false) (.command (.ppm .ppmReset)) ≠
      .error ⟨.idle false, .command (.ppm .ppmReset)⟩ := by
  exact ⟨rfl, by decide⟩

/-- C4 (amended): in Idle(false) the accepted inputs are exactly a
SetNotificationEnable command, the BusyChanged event and the (universally
accepted) PpmReset command; every other command, and the CommandComplete
event, is rejected with InvalidTransition. -/
theorem idle_false_gating :
    (∀ ne : Nat,
      consume (.idle false) (.command (.ppm (.setNotificationEnable ne))) =
        .ok (.processingCommand, some (.executeCommand (.ppm (.setNotificationEnable ne))))) ∧
    consume (.idle false) .busyChanged = .ok (.busy false, none) ∧
    consume (.idle false) (.command (.ppm .ppmReset)) =
      .ok (.idle false, some .resetComplete) ∧
    (∀ c : Command, (∀ ne : Nat, c ≠ .ppm (.setNotificationEnable ne)) →
      c ≠ .ppm .ppmReset →
      consume (.idle false) (.command c) = .error ⟨.idle false, .command c⟩) ∧
    consume (.idle false) .commandComplete =
      .error ⟨.idle false, .commandComplete⟩ := by
  refine ⟨fun ne => rfl, rfl, rfl, ?_, rfl⟩
  intro c hne hr
  rcases c with pc | lc
  · rcases pc with _ | _ | ack | ne | _ <;> simp_all [consume]
  · rfl

/-- C4 witness: the AckCcCi command (ack 0) is neither
SetNotificationEnable nor PpmReset and is rejected in Idle(false). -/
theorem idle_false_gating_witness :
    consume (.idle false) (.command (.ppm (.ackCcCi 0))) =
      .error ⟨.idle false, .command (.ppm (.ackCcCi 0))⟩ :=
  idle_false_gating.2.2.2.1 (.ppm (.ackCcCi 0)) (by intro ne h; cases h) (by decide)

/-- C5 counterexample: a Cancel command consumed in Idle(true) — a state
other than ProcessingCommand — is accepted by the Idle(true) catch-all arm
and executed as an ordinary command, so "for every state other than
ProcessingCommand, consuming Cancel returns Err(InvalidTransition)" is
false as stated. -/
theorem cancel_accepted_in_idle_true :
    consume (.idle true) (.command (.ppm .cancel)) =
      .ok (.processingCommand, some (.executeCommand (.ppm .cancel))) ∧
    consume (.idle true) (.command (.ppm .cancel)) ≠
      .error ⟨.idle true, .command (.ppm .cancel)⟩ := by
  exact ⟨rfl, by decide⟩

/-- C5 (amended): from ProcessingCommand a Cancel command transitions to
WaitForCommandCompleteAck with an OpmNotifyCommandComplete output; from
Idle(true) it is accepted as an ordinary command to execute; in every
other state it is rejected with InvalidTransition. -/
theorem cancel_legality :
    consume .processingCommand (.command (.ppm .cancel)) =
      .ok (.waitForCommandCompleteAck, some .opmNotifyCommandComplete) ∧
    consume (.idle true) (.command (.ppm .cancel)) =
      .ok (.processingCommand, some (.executeCommand (.ppm .cancel))) ∧
    (∀ s : PpmState, s ≠ .processingCommand → s ≠ .idle true →
      consume s (.command (.ppm .cancel)) = .error ⟨s, .command (.ppm .cancel)⟩) := by
  refine ⟨rfl, rfl, ?_⟩
  intro s h1 h2
  rcases s with nb | nb | _ | _ <;> (try rcases nb with _ | _) <;> simp_all [consume]

/-- C5 witness: Cancel is rejected in Busy(false). -/
theorem cancel_legality_witness :
    consume (.busy false) (.command (.ppm .cancel)) =
      .error ⟨.busy false, .command (.ppm .cancel)⟩ :=
  cancel_legality.2.2 (.busy false) (by decide) (by decide)

/-! ## Byte-level lemmas shared by the codec theorems -/

theorem skipBytes_replicate (n a : Nat) (rest : List Nat) :
    skipBytes n (List.replicate n a ++ rest) = some rest := by
  induction n with
  | zero => rfl
  | succ n ih => simpa [List.replicate, skipBytes] using ih

theorem readLE_bytesLE (n : Nat) : ∀ (v : Nat) (rest : List Nat), v < 2 ^ (8 * n) →
    readLE n (bytesLE n v ++ rest) = some (v, rest) := by
  induction n with
  | zero =>
    intro v rest h
    have hv : v = 0 := by simpa using h
    subst hv; rfl
  | succ n ih =>
    intro v rest h
    have hsplit : 2 ^ (8 * (n + 1)) = 2 ^ (8 * n) * 256 := by
      rw [Nat.mul_succ, pow_add]; norm_num
    have hlt : v / 256 < 2 ^ (8 * n) := by
      rw [hsplit] at h
      exact (Nat.div_lt_iff_lt_mul (by norm_num)).mpr h
    show readLE (n + 1) (v % 256 :: (bytesLE n (v / 256) ++ rest)) = some (v, rest)
    rw [readLE, ih (v / 256) rest hlt]
    simp [Option.map]
    omega

/-! ## C7: opcode table -/

set_option maxRecDepth 4096 in
theorem opcodeRoundtripFin : ∀ b : Fin 256,
    (CommandType.tryFromByte b.val).map CommandType.toByte =
      if validOpcode b.val then .ok b.val else .error b.val := by decide

/-- C7: converting a byte to CommandType succeeds exactly for the opcodes
0x01..0x22 minus the reserved gaps 0x17 and 0x20, each accepted value
re-encoding to the same number and every other byte yielding the
structured error carrying the offending value; decoding a 2-byte command
header succeeds exactly when the low byte is such an opcode, and otherwise
fails with the structured unexpected-variant error carrying the raw value
(both conversions are total functions — no panic). -/
theorem opcode_table_exact :
    (∀ b : Fin 256,
      (CommandType.tryFromByte b.val).map CommandType.toByte =
        if validOpcode b.val then .ok b.val else .error b.val) ∧
    (∀ (b0 b1 : Nat) (rest : List Nat), b0 < 256 → b1 < 256 →
      (validOpcode b0 = true →
        ∃ c, CommandType.tryFromByte b0 = .ok c ∧ c.toByte = b0 ∧
          decodeCommandHeader (b0 :: b1 :: rest) = .ok (⟨c, b1⟩, rest)) ∧
      (validOpcode b0 = false →
        decodeCommandHeader (b0 :: b1 :: rest) =
          .error (.unexpectedVariant "CommandHeader" allowedHeaderOpcodes (b0 + 256 * b1)))) := by
  refine ⟨opcodeRoundtripFin, ?_⟩
  intro b0 b1 rest h0 h1
  have hmod : (b0 + 256 * b1) % 256 = b0 := by omega
  have hdiv : (b0 + 256 * b1) / 256 = b1 := by omega
  have hread : readLE 2 (b0 :: b1 :: rest) = some (b0 + 256 * b1, rest) := by
    simp [readLE, Option.map]
  have hf := opcodeRoundtripFin ⟨b0, h0⟩
  constructor
  · intro hv
    simp only [Fin.val_mk] at hf
    rw [hv, if_pos rfl] at hf
    cases hc : CommandType.tryFromByte b0 with
    | error e => rw [hc] at hf; simp [Except.map] at hf
    | ok c =>
      rw [hc] at hf
      simp only [Except.map, Except.ok.injEq] at hf
      refine ⟨c, rfl, hf, ?_⟩
      simp [decodeCommandHeader, hread, hmod, hc, hdiv]
  · intro hv
    have herr : CommandType.tryFromByte b0 = .error b0 := by
      simp only [Fin.val_mk] at hf
      rw [hv] at hf
      simp only [Bool.false_eq_true, if_false] at hf
      cases hc : CommandType.tryFromByte b0 with
      | ok c => rw [hc] at hf; simp [Except.map] at hf
      | error e =>
        rw [hc] at hf
        simp only [Except.map, Except.error.injEq] at hf
        rw [hf]
    simp [decodeCommandHeader, hread, hmod, herr]

/-- C7 witness: opcode 0x12 (GET_CONNECTOR_STATUS) decodes and re-encodes
to itself at the header level; the reserved opcode 0x17 fails the header
decode with the structured error carrying the raw value. -/
theorem opcode_table_exact_witness :
    (∃ c, CommandType.tryFromByte 0x12 = .ok c ∧ CommandType.toByte c = 0x12 ∧
      decodeCommandHeader [0x12, 0] = .ok (⟨c, 0⟩, [])) ∧
    decodeCommandHeader [0x17, 0] =
      .error (.unexpectedVariant "CommandHeader" allowedHeaderOpcodes 0x17) := by
  constructor
  · exact (opcode_table_exact.2 0x12 0 [] (by decide) (by decide)).1 (by decide)
  · have := (opcode_table_exact.2 0x17 0 [] (by decide) (by decide)).2 (by decide)
    simpa using this

/-- C8: the claim is right and the code is wrong. Decoding the 8-byte
GET_PDOS command whose argument `u32` holds source-capability-type 3 (an
out-of-range value the validating constructor `TryFrom<ArgsRaw>` rejects)
does not fail: `get_pdos::Args::decode` wraps the raw value without
validation, and the `source_capability_type` accessor — whose comment
claims "Won't panic, validated in try_from" — then hits the `unwrap` of an
`Err` (modelled as `none`), i.e. it panics. By contrast
GET_ALTERNATE_MODES with an out-of-range recipient fails decode with the
structured error required by the spec, showing the intended behavior. -/
theorem get_pdos_decode_skips_validation :
    decodeCommand [0x10, 0x00, 0x00, 0x00, 0x18, 0x00, 0x00, 0x00] =
      .ok (.lpm ⟨0, .getPdos 0x180000⟩, []) ∧
    getBits 0x180000 19 2 = 3 ∧
    getPdosArgsTryFromRaw 0x180000 = .error 3 ∧
    getPdosSourceCapabilityType 0x180000 = none ∧
    decodeCommand [0x0C, 0x00, 0x04, 0x00, 0x00, 0x00, 0x00, 0x00] =
      .error (.unexpectedVariant "Recipient" [0, 1, 2, 3] 4) := by decide

/-- C9 counterexample: the 19-byte scenario buffer decodes successfully,
but its status-change word is 0x8001 — bits 0 (reserved) and 15 (error) —
so the external-supply-change accessor (bit 1) reads false, contradicting
"status_change with exactly the external-supply-change and error flags
set". -/
theorem scenario_external_supply_change_clear :
    decodeGcsResponse scenarioGcsBytes = .ok (scenarioGcsExpected, []) ∧
    scenarioGcsExpected.statusChange = 0x8001 ∧
    statusChangeExternalSupplyChange 0x8001 = false := by decide

/-- C9 (amended): the scenario bytes decode to connect-status true, power
operation mode Pd, power direction Sink, partner type DfpAttached, rdo
0x78563412, orientation CC2 (flipped), sink-path-status true and a power
reading with 5 mA / 5 mV scales; the status-change word is raw 0x8001,
whose set bits are the reserved bit 0 and the error flag (bit 15) — the
external-supply-change flag (bit 1) is clear. -/
theorem scenario_decode_exact :
    decodeGcsResponse scenarioGcsBytes = .ok (scenarioGcsExpected, []) ∧
    scenarioGcsExpected.statusChange = 0x8001 ∧
    statusChangeError 0x8001 = true ∧
    bitIsSet 0x8001 0 = true ∧
    statusChangeExternalSupplyChange 0x8001 = false ∧
    scenarioGcsExpected.connectStatus = true ∧
    scenarioGcsExpected.status.map (fun st => st.powerOpMode) = some .pd ∧
    scenarioGcsExpected.status.map (fun st => st.powerDirection) = some .sink ∧
    scenarioGcsExpected.status.map (fun st => st.partnerType) = some .dfpAttached ∧
    scenarioGcsExpected.status.map (fun st => st.rdo) = some (some 0x78563412) ∧
    scenarioGcsExpected.status.map (fun st => st.orientation) = some .cc2 ∧
    scenarioGcsExpected.status.map (fun st => st.sinkPathStatus) = some true ∧
    scenarioGcsExpected.powerReading.map (fun pr => pr.scaleMa) = some 5 ∧
    scenarioGcsExpected.powerReading.map (fun pr => pr.scaleMv) = some 5 := by decide

/-- C10 counterexample: `has_response` is false for ConnectorReset, yet
response decoding with ConnectorReset context succeeds (the union has a
`ConnectorReset` variant); and `has_response` is true for SetPowerLevel,
yet response decoding with SetPowerLevel context fails on its 16-byte
buffer — so "decoding with context c can succeed iff has_response(c)" is
false in both directions. -/
theorem response_variant_mismatch :
    CommandType.hasResponse .connectorReset = false ∧
    decodeResponseData .connectorReset [] = .ok (.lpm .connectorReset, []) ∧
    CommandType.hasResponse .setPowerLevel = true ∧
    decodeResponseData .setPowerLevel (List.replicate 16 0) =
      .error (.unexpectedVariant "CommandType" [0x12] 0x14) := by decide

/-- C10 (amended): response decoding with context c can succeed exactly
for the command types with a ResponseData variant — GetCapability (PPM)
plus ConnectorReset, GetConnectorStatus, GetConnectorCapability,
GetErrorStatus, GetAlternateModes, GetCamSupported, GetCurrentCam,
GetPdos and GetCableProperty (LPM). This set differs from
`has_response() == true`: it includes ConnectorReset (has_response false)
and omits the fifteen has_response-true types without a variant. -/
theorem response_variant_set :
    (∀ ct : CommandType,
      (∃ bs out rest, decodeResponseData ct bs = .ok (out, rest)) ↔
        ct ∈ decodableResponseTypes) ∧
    (∀ ct : CommandType,
      (ct.hasResponse = true ∧ ct ∉ decodableResponseTypes) ↔
        ct ∈ missingResponseVariantTypes) ∧
    (∀ ct : CommandType,
      (ct.hasResponse = false ∧ ct ∈ decodableResponseTypes) ↔
        ct = .connectorReset) := by
  refine ⟨?_, ?_, ?_⟩
  · intro ct
    constructor
    · rintro ⟨bs, out, rest, h⟩
      cases ct <;>
        first
          | decide
          | simp [decodeResponseData, decodePpmResponse, decodeLpmResponse, Except.map] at h
    · intro hm
      cases ct
      case getCapability =>
        exact ⟨List.replicate 16 0, .ppm (.getCapability capMinimal), [], by decide⟩
      case connectorReset =>
        exact ⟨[], .lpm .connectorReset, [], by decide⟩
      case getConnectorStatus =>
        exact ⟨List.replicate 19 0, .lpm (.getConnectorStatus gcsMinimal), [], by decide⟩
      case getConnectorCapability =>
        exact ⟨List.replicate 4 0, .lpm (.getConnectorCapability 0), [], by decide⟩
      case getErrorStatus =>
        exact ⟨List.replicate 16 0, .lpm (.getErrorStatus 0 (List.replicate 14 0)), [], by decide⟩
      case getAlternateModes =>
        exact ⟨List.replicate 12 0, .lpm (.getAlternateModes [⟨0, 0⟩, ⟨0, 0⟩]), [], by decide⟩
      case getCamSupported =>
        exact ⟨[0], .lpm (.getCamSupported 0), [], by decide⟩
      case getCurrentCam =>
        exact ⟨List.replicate 16 0, .lpm (.getCurrentCam (List.replicate 16 0)), [], by decide⟩
      case getPdos =>
        exact ⟨List.replicate 16 0, .lpm (.getPdos [0, 0, 0, 0]), [], by decide⟩
      case getCableProperty =>
        exact ⟨List.replicate 5 0, .lpm (.getCableProperty cableMinimal), [], by decide⟩
      all_goals simp [decodableResponseTypes] at hm
  · intro ct
    cases ct <;> decide
  · intro ct
    cases ct <;> decide

/-- C10 witness: a successful decodability instance obtained from the
characterization, at the GetPdos context. -/
theorem response_variant_set_witness :
    ∃ bs out rest, decodeResponseData .getPdos bs = .ok (out, rest) :=
  (response_variant_set.1 .getPdos).mpr (by decide)

/-! ## Round-trip lemmas (one per command layout class) -/

theorem roundtripPpmUnit :
    decodePpmCommand .ppmReset (encodePpmCommandArgs .ppmReset) = .ok (.ppmReset, []) ∧
    decodePpmCommand .cancel (encodePpmCommandArgs .cancel) = .ok (.cancel, []) ∧
    decodePpmCommand .getCapability (encodePpmCommandArgs .getCapability) =
      .ok (.getCapability, []) := by decide

theorem roundtripAckCcCi (ack : Nat) :
    decodePpmCommand .ackCcCi (encodePpmCommandArgs (.ackCcCi ack)) =
      .ok (.ackCcCi ack, []) := rfl

theorem roundtripSetNotificationEnable (ne : Nat) (h : ne < 2 ^ 32) :
    decodePpmCommand .setNotificationEnable (encodePpmCommandArgs (.setNotificationEnable ne)) =
      .ok (.setNotificationEnable ne, []) := by
  have hr := readLE_bytesLE 4 ne [0, 0] (by simpa using h)
  show decodePpmCommand .setNotificationEnable (bytesLE 4 ne ++ [0, 0]) = _
  simp [decodePpmCommand, hr, skipBytes]

theorem roundtripPortCommands (p : Nat) (hp : p < 128) :
    decodeCommand (encodeLpmCommand ⟨p, .connectorReset⟩) =
      .ok (.lpm ⟨p, .connectorReset⟩, []) ∧
    decodeCommand (encodeLpmCommand ⟨p, .getConnectorStatus⟩) =
      .ok (.lpm ⟨p, .getConnectorStatus⟩, []) ∧
    decodeCommand (encodeLpmCommand ⟨p, .getConnectorCapability⟩) =
      .ok (.lpm ⟨p, .getConnectorCapability⟩, []) ∧
    decodeCommand (encodeLpmCommand ⟨p, .getErrorStatus⟩) =
      .ok (.lpm ⟨p, .getErrorStatus⟩, []) ∧
    decodeCommand (encodeLpmCommand ⟨p, .getCamSupported⟩) =
      .ok (.lpm ⟨p, .getCamSupported⟩, []) ∧
    decodeCommand (encodeLpmCommand ⟨p, .getCurrentCam⟩) =
      .ok (.lpm ⟨p, .getCurrentCam⟩, []) ∧
    decodeCommand (encodeLpmCommand ⟨p, .getCableProperty⟩) =
      .ok (.lpm ⟨p, .getCableProperty⟩, []) := by
  have hp' : p % 128 = p := Nat.mod_eq_of_lt hp
  refine ⟨?_, ?_, ?_, ?_, ?_, ?_, ?_⟩ <;>
    simp [encodeLpmCommand, encodeCommandHeader, encodeLpmCommandBody, bytesLE,
      LpmCommandData.commandType, CommandType.toByte, decodeCommand, decodeCommandHeader,
      readLE, Option.map, CommandType.tryFromByte, decodeLpmCommand, decodePortThenPadding,
      skipBytes, List.replicate, Except.map, hp']

theorem roundtripU16Commands (raw : Nat) (h : raw < 2 ^ 16) :
    decodeCommand (encodeLpmCommand ⟨getBits raw 0 7, .setCcom raw⟩) =
      .ok (.lpm ⟨getBits raw 0 7, .setCcom raw⟩, []) ∧
    decodeCommand (encodeLpmCommand ⟨getBits raw 0 7, .setUor raw⟩) =
      .ok (.lpm ⟨getBits raw 0 7, .setUor raw⟩, []) ∧
    decodeCommand (encodeLpmCommand ⟨getBits raw 0 7, .setPdr raw⟩) =
      .ok (.lpm ⟨getBits raw 0 7, .setPdr raw⟩, []) := by
  have hr := readLE_bytesLE 2 raw [0, 0, 0, 0] (by simpa using h)
  refine ⟨?_, ?_, ?_⟩
  · have henc : encodeLpmCommand ⟨getBits raw 0 7, .setCcom raw⟩ =
        0x08 :: 0x00 :: (bytesLE 2 raw ++ [0, 0, 0, 0]) := by
      simp [encodeLpmCommand, encodeCommandHeader, encodeLpmCommandBody, bytesLE,
        CommandType.toByte, LpmCommandData.commandType, List.replicate]
    rw [henc]
    generalize hbody : bytesLE 2 raw = body
    rw [hbody] at hr
    simp [decodeCommand, decodeCommandHeader, readLE, Option.map, CommandType.tryFromByte,
      decodeLpmCommand, skipBytes, Except.map, hr]
  · have henc : encodeLpmCommand ⟨getBits raw 0 7, .setUor raw⟩ =
        0x09 :: 0x00 :: (bytesLE 2 raw ++ [0, 0, 0, 0]) := by
      simp [encodeLpmCommand, encodeCommandHeader, encodeLpmCommandBody, bytesLE,
        CommandType.toByte, LpmCommandData.commandType, List.replicate]
    rw [henc]
    generalize hbody : bytesLE 2 raw = body
    rw [hbody] at hr
    simp [decodeCommand, decodeCommandHeader, readLE, Option.map, CommandType.tryFromByte,
      decodeLpmCommand, skipBytes, Except.map, hr]
  · have henc : encodeLpmCommand ⟨getBits raw 0 7, .setPdr raw⟩ =
        0x0B :: 0x00 :: (bytesLE 2 raw ++ [0, 0, 0, 0]) := by
      simp [encodeLpmCommand, encodeCommandHeader, encodeLpmCommandBody, bytesLE,
        CommandType.toByte, LpmCommandData.commandType, List.replicate]
    rw [henc]
    generalize hbody : bytesLE 2 raw = body
    rw [hbody] at hr
    simp [decodeCommand, decodeCommandHeader, readLE, Option.map, CommandType.tryFromByte,
      decodeLpmCommand, skipBytes, Except.map, hr]

theorem roundtripGetPdosCommand (raw : Nat) (h : raw < 2 ^ 32) :
    decodeCommand (encodeLpmCommand ⟨getBits raw 0 7, .getPdos raw⟩) =
      .ok (.lpm ⟨getBits raw 0 7, .getPdos raw⟩, []) := by
  have hr := readLE_bytesLE 4 raw [0, 0] (by simpa using h)
  have henc : encodeLpmCommand ⟨getBits raw 0 7, .getPdos raw⟩ =
      0x10 :: 0x00 :: (bytesLE 4 raw ++ [0, 0]) := by
    simp [encodeLpmCommand, encodeCommandHeader, encodeLpmCommandBody, bytesLE,
      CommandType.toByte, LpmCommandData.commandType, List.replicate]
  rw [henc]
  generalize hbody : bytesLE 4 raw = body
  rw [hbody] at hr
  simp [decodeCommand, decodeCommandHeader, readLE, Option.map, CommandType.tryFromByte,
    decodeLpmCommand, skipBytes, Except.map, hr]

theorem roundtripGetAlternateModes (raw : Nat) (h : raw < 2 ^ 32)
    (hrec : getBits raw 0 3 < 4) :
    decodeCommand (encodeLpmCommand ⟨getBits raw 8 7, .getAlternateModes raw⟩) =
      .ok (.lpm ⟨getBits raw 8 7, .getAlternateModes raw⟩, []) := by
  have hr := readLE_bytesLE 4 raw [0, 0] (by simpa using h)
  have hok : ∃ r, Recipient.tryFromByte (getBits raw 0 3) = .ok r := by
    set g := getBits raw 0 3 with hg
    interval_cases g <;> exact ⟨_, rfl⟩
  obtain ⟨r, hr2⟩ := hok
  have henc : encodeLpmCommand ⟨getBits raw 8 7, .getAlternateModes raw⟩ =
      0x0C :: 0x00 :: (bytesLE 4 raw ++ [0, 0]) := by
    simp [encodeLpmCommand, encodeCommandHeader, encodeLpmCommandBody, bytesLE,
      CommandType.toByte, LpmCommandData.commandType, List.replicate]
  rw [henc]
  generalize hbody : bytesLE 4 raw = body
  rw [hbody] at hr
  simp [decodeCommand, decodeCommandHeader, readLE, Option.map, CommandType.tryFromByte,
    decodeLpmCommand, skipBytes, Except.map, hr, hr2]

theorem roundtripSetPowerLevel (raw : Nat) (h : raw < 2 ^ 48)
    (hcur : getBits raw 16 3 < 4) :
    decodeCommand (encodeLpmCommand ⟨getBits raw 0 7, .setPowerLevel raw⟩) =
      .ok (.lpm ⟨getBits raw 0 7, .setPowerLevel raw⟩, []) := by
  have hr' := readLE_bytesLE 6 raw [] (by simpa using h)
  have hr : readLE 6 (bytesLE 6 raw) = some (raw, []) := by simpa using hr'
  have hok : ∃ r, tryCurrentFromByte (getBits raw 16 3) = .ok r := by
    set g := getBits raw 16 3 with hg
    interval_cases g <;> exact ⟨_, rfl⟩
  obtain ⟨r, hr2⟩ := hok
  have henc : encodeLpmCommand ⟨getBits raw 0 7, .setPowerLevel raw⟩ =
      0x14 :: 0x00 :: bytesLE 6 raw := by
    simp [encodeLpmCommand, encodeCommandHeader, encodeLpmCommandBody, bytesLE,
      CommandType.toByte, LpmCommandData.commandType]
  rw [henc]
  generalize hbody : bytesLE 6 raw = body
  rw [hbody] at hr
  simp [decodeCommand, decodeCommandHeader, readLE, Option.map, CommandType.tryFromByte,
    decodeLpmCommand, Except.map, hr, hr2]

theorem roundtripSetNewCam (cn off spec : Nat) (enter : Bool) (hcn : cn < 128)
    (hspec : spec < 2 ^ 32) :
    decodeCommand (encodeLpmCommand ⟨cn, .setNewCam cn enter off spec⟩) =
      .ok (.lpm ⟨cn, .setNewCam cn enter off spec⟩, []) := by
  have hpow : (2 : Nat) ^ 7 = 128 := by norm_num
  have hb : (cn % 128 + if enter then 128 else 0) % 128 = cn := by
    cases enter <;> simp <;> (try omega)
  have hbit : bitIsSet (cn % 128 + if enter then 128 else 0) 7 = enter := by
    cases enter <;> simp [bitIsSet, Nat.shiftRight_eq_div_pow, hpow] <;> (try omega)
  have hr' := readLE_bytesLE 4 spec [] (by simpa using hspec)
  have hr : readLE 4 (bytesLE 4 spec) = some (spec, []) := by simpa using hr'
  have henc : encodeLpmCommand ⟨cn, .setNewCam cn enter off spec⟩ =
      0x0F :: 0x00 :: (cn % 128 + if enter then 128 else 0) :: off :: bytesLE 4 spec := by
    simp [encodeLpmCommand, encodeCommandHeader, encodeLpmCommandBody, bytesLE,
      CommandType.toByte, LpmCommandData.commandType]
  rw [henc]
  generalize hbody : bytesLE 4 spec = body
  rw [hbody] at hr
  simp [decodeCommand, decodeCommandHeader, readLE, Option.map, CommandType.tryFromByte,
    decodeLpmCommand, Except.map, hr, hb, hbit]

set_option synthInstance.maxSize 2048 in
/-- All concrete response round trips at the minimal and maximally
populated canonical values, evaluated in one step. -/
theorem roundtripResponsesConcrete :
    (decodeResponseData .getCapability (encodeResponseData (.ppm (.getCapability capMinimal))) =
      .ok (.ppm (.getCapability capMinimal), [])) ∧
    (decodeResponseData .getCapability (encodeResponseData (.ppm (.getCapability capMaximal))) =
      .ok (.ppm (.getCapability capMaximal), [])) ∧
    (decodeResponseData .connectorReset (encodeResponseData (.lpm .connectorReset)) =
      .ok (.lpm .connectorReset, [])) ∧
    (decodeResponseData .getConnectorStatus
        (encodeResponseData (.lpm (.getConnectorStatus gcsMinimal))) =
      .ok (.lpm (.getConnectorStatus gcsMinimal), [])) ∧
    (decodeResponseData .getConnectorStatus
        (encodeResponseData (.lpm (.getConnectorStatus gcsMaximal))) =
      .ok (.lpm (.getConnectorStatus gcsMaximal), [])) ∧
    (decodeResponseData .getConnectorCapability
        (encodeResponseData (.lpm (.getConnectorCapability 0))) =
      .ok (.lpm (.getConnectorCapability 0), [])) ∧
    (decodeResponseData .getConnectorCapability
        (encodeResponseData (.lpm (.getConnectorCapability 0xFFFFFFFF))) =
      .ok (.lpm (.getConnectorCapability 0xFFFFFFFF), [])) ∧
    (decodeResponseData .getErrorStatus
        (encodeResponseData (.lpm (.getErrorStatus 0 (List.replicate 14 0)))) =
      .ok (.lpm (.getErrorStatus 0 (List.replicate 14 0)), [])) ∧
    (decodeResponseData .getErrorStatus
        (encodeResponseData (.lpm (.getErrorStatus 0xFFFF (List.replicate 14 0xFF)))) =
      .ok (.lpm (.getErrorStatus 0xFFFF (List.replicate 14 0xFF)), [])) ∧
    (decodeResponseData .getAlternateModes
        (encodeResponseData (.lpm (.getAlternateModes [⟨0, 0⟩, ⟨0, 0⟩]))) =
      .ok (.lpm (.getAlternateModes [⟨0, 0⟩, ⟨0, 0⟩]), [])) ∧
    (decodeResponseData .getAlternateModes
        (encodeResponseData (.lpm (.getAlternateModes
          [⟨0xFFFF, 0xFFFFFFFF⟩, ⟨0xFFFF, 0xFFFFFFFF⟩]))) =
      .ok (.lpm (.getAlternateModes [⟨0xFFFF, 0xFFFFFFFF⟩, ⟨0xFFFF, 0xFFFFFFFF⟩]), [])) ∧
    (decodeResponseData .getCamSupported (encodeResponseData (.lpm (.getCamSupported 0))) =
      .ok (.lpm (.getCamSupported 0), [])) ∧
    (decodeResponseData .getCamSupported (encodeResponseData (.lpm (.getCamSupported 0xFF))) =
      .ok (.lpm (.getCamSupported 0xFF), [])) ∧
    (decodeResponseData .getCurrentCam
        (encodeResponseData (.lpm (.getCurrentCam (List.replicate 16 0)))) =
      .ok (.lpm (.getCurrentCam (List.replicate 16 0)), [])) ∧
    (decodeResponseData .getCurrentCam
        (encodeResponseData (.lpm (.getCurrentCam (List.replicate 16 0xFF)))) =
      .ok (.lpm (.getCurrentCam (List.replicate 16 0xFF)), [])) ∧
    (decodeResponseData .getPdos (encodeResponseData (.lpm (.getPdos [1, 1, 1, 1]))) =
      .ok (.lpm (.getPdos [1, 1, 1, 1]), [])) ∧
    (decodeResponseData .getPdos
        (encodeResponseData (.lpm (.getPdos
          [0xFFFFFFFF, 0xFFFFFFFF, 0xFFFFFFFF, 0xFFFFFFFF]))) =
      .ok (.lpm (.getPdos [0xFFFFFFFF, 0xFFFFFFFF, 0xFFFFFFFF, 0xFFFFFFFF]), [])) ∧
    (decodeResponseData .getCableProperty
        (encodeResponseData (.lpm (.getCableProperty cableMinimal))) =
      .ok (.lpm (.getCableProperty cableMinimal), [])) ∧
    (decodeResponseData .getCableProperty
        (encodeResponseData (.lpm (.getCableProperty cableMaximal))) =
      .ok (.lpm (.getCableProperty cableMaximal), [])) := by decide

/-- C6 counterexample: encoding the CONNECTOR_RESET command for port 128
writes the raw port byte, but decoding masks the connector number to 7
bits, so the round trip returns port 0 — `decode(encode(command)) ==
command` is false as stated for this command value. -/
theorem roundtrip_counterexample :
    decodeCommand (encodeLpmCommand ⟨128, .connectorReset⟩) =
      .ok (.lpm ⟨0, .connectorReset⟩, []) ∧
    Command.lpm ⟨0, .connectorReset⟩ ≠ Command.lpm ⟨128, .connectorReset⟩ := by decide

/-- C6 (amended): decode(encode) is the identity for every command whose
port id fits the 7-bit connector-number wire field (and, for commands
whose arguments embed the connector number, agrees with that embedded
field) and whose validated argument sub-fields are in range; and for every
response type, decode(encode(response)) == response holds at the minimal
and at the maximally-populated canonical field values (GET_PDOS responses
with all four PDOs populated, GET_CONNECTOR_STATUS and GET_CABLE_PROPERTY
values in the decoder's canonical image). PPM commands are paired with the
context-carrying decoder their argument-only encoder matches; LPM commands
round-trip through the full header-carrying codec. -/
theorem roundtrip_in_range :
    (decodePpmCommand .ppmReset (encodePpmCommandArgs .ppmReset) = .ok (.ppmReset, [])) ∧
    (decodePpmCommand .cancel (encodePpmCommandArgs .cancel) = .ok (.cancel, [])) ∧
    (decodePpmCommand .getCapability (encodePpmCommandArgs .getCapability) =
      .ok (.getCapability, [])) ∧
    (∀ ack : Nat,
      decodePpmCommand .ackCcCi (encodePpmCommandArgs (.ackCcCi ack)) =
        .ok (.ackCcCi ack, [])) ∧
    (∀ ne : Nat, ne < 2 ^ 32 →
      decodePpmCommand .setNotificationEnable
          (encodePpmCommandArgs (.setNotificationEnable ne)) =
        .ok (.setNotificationEnable ne, [])) ∧
    (∀ p : Nat, p < 128 →
      decodeCommand (encodeLpmCommand ⟨p, .connectorReset⟩) =
        .ok (.lpm ⟨p, .connectorReset⟩, []) ∧
      decodeCommand (encodeLpmCommand ⟨p, .getConnectorStatus⟩) =
        .ok (.lpm ⟨p, .getConnectorStatus⟩, []) ∧
      decodeCommand (encodeLpmCommand ⟨p, .getConnectorCapability⟩) =
        .ok (.lpm ⟨p, .getConnectorCapability⟩, []) ∧
      decodeCommand (encodeLpmCommand ⟨p, .getErrorStatus⟩) =
        .ok (.lpm ⟨p, .getErrorStatus⟩, []) ∧
      decodeCommand (encodeLpmCommand ⟨p, .getCamSupported⟩) =
        .ok (.lpm ⟨p, .getCamSupported⟩, []) ∧
      decodeCommand (encodeLpmCommand ⟨p, .getCurrentCam⟩) =
        .ok (.lpm ⟨p, .getCurrentCam⟩, []) ∧
      decodeCommand (encodeLpmCommand ⟨p, .getCableProperty⟩) =
        .ok (.lpm ⟨p, .getCableProperty⟩, [])) ∧
    (∀ raw : Nat, raw < 2 ^ 16 →
      decodeCommand (encodeLpmCommand ⟨getBits raw 0 7, .setCcom raw⟩) =
        .ok (.lpm ⟨getBits raw 0 7, .setCcom raw⟩, []) ∧
      decodeCommand (encodeLpmCommand ⟨getBits raw 0 7, .setUor raw⟩) =
        .ok (.lpm ⟨getBits raw 0 7, .setUor raw⟩, []) ∧
      decodeCommand (encodeLpmCommand ⟨getBits raw 0 7, .setPdr raw⟩) =
        .ok (.lpm ⟨getBits raw 0 7, .setPdr raw⟩, [])) ∧
    (∀ raw : Nat, raw < 2 ^ 32 →
      decodeCommand (encodeLpmCommand ⟨getBits raw 0 7, .getPdos raw⟩) =
        .ok (.lpm ⟨getBits raw 0 7, .getPdos raw⟩, [])) ∧
    (∀ raw : Nat, raw < 2 ^ 32 → getBits raw 0 3 < 4 →
      decodeCommand (encodeLpmCommand ⟨getBits raw 8 7, .getAlternateModes raw⟩) =
        .ok (.lpm ⟨getBits raw 8 7, .getAlternateModes raw⟩, [])) ∧
    (∀ raw : Nat, raw < 2 ^ 48 → getBits raw 16 3 < 4 →
      decodeCommand (encodeLpmCommand ⟨getBits raw 0 7, .setPowerLevel raw⟩) =
        .ok (.lpm ⟨getBits raw 0 7, .setPowerLevel raw⟩, [])) ∧
    (∀ (cn off spec : Nat) (enter : Bool), cn < 128 → spec < 2 ^ 32 →
      decodeCommand (encodeLpmCommand ⟨cn, .setNewCam cn enter off spec⟩) =
        .ok (.lpm ⟨cn, .setNewCam cn enter off spec⟩, [])) ∧
    (decodeResponseData .getCapability (encodeResponseData (.ppm (.getCapability capMinimal))) =
      .ok (.ppm (.getCapability capMinimal), [])) ∧
    (decodeResponseData .getCapability (encodeResponseData (.ppm (.getCapability capMaximal))) =
      .ok (.ppm (.getCapability capMaximal), [])) ∧
    (decodeResponseData .connectorReset (encodeResponseData (.lpm .connectorReset)) =
      .ok (.lpm .connectorReset, [])) ∧
    (decodeResponseData .getConnectorStatus
        (encodeResponseData (.lpm (.getConnectorStatus gcsMinimal))) =
      .ok (.lpm (.getConnectorStatus gcsMinimal), [])) ∧
    (decodeResponseData .getConnectorStatus
        (encodeResponseData (.lpm (.getConnectorStatus gcsMaximal))) =
      .ok (.lpm (.getConnectorStatus gcsMaximal), [])) ∧
    (decodeResponseData .getConnectorCapability
        (encodeResponseData (.lpm (.getConnectorCapability 0))) =
      .ok (.lpm (.getConnectorCapability 0), [])) ∧
    (decodeResponseData .getConnectorCapability
        (encodeResponseData (.lpm (.getConnectorCapability 0xFFFFFFFF))) =
      .ok (.lpm (.getConnectorCapability 0xFFFFFFFF), [])) ∧
    (decodeResponseData .getErrorStatus
        (encodeResponseData (.lpm (.getErrorStatus 0 (List.replicate 14 0)))) =
      .ok (.lpm (.getErrorStatus 0 (List.replicate 14 0)), [])) ∧
    (decodeResponseData .getErrorStatus
        (encodeResponseData (.lpm (.getErrorStatus 0xFFFF (List.replicate 14 0xFF)))) =
      .ok (.lpm (.getErrorStatus 0xFFFF (List.replicate 14 0xFF)), [])) ∧
    (decodeResponseData .getAlternateModes
        (encodeResponseData (.lpm (.getAlternateModes [⟨0, 0⟩, ⟨0, 0⟩]))) =
      .ok (.lpm (.getAlternateModes [⟨0, 0⟩, ⟨0, 0⟩]), [])) ∧
    (decodeResponseData .getAlternateModes
        (encodeResponseData (.lpm (.getAlternateModes
          [⟨0xFFFF, 0xFFFFFFFF⟩, ⟨0xFFFF, 0xFFFFFFFF⟩]))) =
      .ok (.lpm (.getAlternateModes [⟨0xFFFF, 0xFFFFFFFF⟩, ⟨0xFFFF, 0xFFFFFFFF⟩]), [])) ∧
    (decodeResponseData .getCamSupported (encodeResponseData (.lpm (.getCamSupported 0))) =
      .ok (.lpm (.getCamSupported 0), [])) ∧
    (decodeResponseData .getCamSupported (encodeResponseData (.lpm (.getCamSupported 0xFF))) =
      .ok (.lpm (.getCamSupported 0xFF), [])) ∧
    (decodeResponseData .getCurrentCam
        (encodeResponseData (.lpm (.getCurrentCam (List.replicate 16 0)))) =
      .ok (.lpm (.getCurrentCam (List.replicate 16 0)), [])) ∧
    (decodeResponseData .getCurrentCam
        (encodeResponseData (.lpm (.getCurrentCam (List.replicate 16 0xFF)))) =
      .ok (.lpm (.getCurrentCam (List.replicate 16 0xFF)), [])) ∧
    (decodeResponseData .getPdos (encodeResponseData (.lpm (.getPdos [1, 1, 1, 1]))) =
      .ok (.lpm (.getPdos [1, 1, 1, 1]), [])) ∧
    (decodeResponseData .getPdos
        (encodeResponseData (.lpm (.getPdos
          [0xFFFFFFFF, 0xFFFFFFFF, 0xFFFFFFFF, 0xFFFFFFFF]))) =
      .ok (.lpm (.getPdos [0xFFFFFFFF, 0xFFFFFFFF, 0xFFFFFFFF, 0xFFFFFFFF]), [])) ∧
    (decodeResponseData .getCableProperty
        (encodeResponseData (.lpm (.getCableProperty cableMinimal))) =
      .ok (.lpm (.getCableProperty cableMinimal), [])) ∧
    (decodeResponseData .getCableProperty
        (encodeResponseData (.lpm (.getCableProperty cableMaximal))) =
      .ok (.lpm (.getCableProperty cableMaximal), [])) := by
  refine ⟨roundtripPpmUnit.1, roundtripPpmUnit.2.1, roundtripPpmUnit.2.2,
    roundtripAckCcCi,
    fun ne h => roundtripSetNotificationEnable ne h,
    fun p hp => roundtripPortCommands p hp,
    fun raw h => roundtripU16Commands raw h,
    fun raw h => roundtripGetPdosCommand raw h,
    fun raw h1 h2 => roundtripGetAlternateModes raw h1 h2,
    fun raw h1 h2 => roundtripSetPowerLevel raw h1 h2,
    fun cn off spec enter h1 h2 => roundtripSetNewCam cn off spec enter h1 h2,
    roundtripResponsesConcrete.1, roundtripResponsesConcrete.2⟩

/-- C6 witness: the command round trips instantiated at concrete maximal
in-range values. -/
theorem roundtrip_in_range_witness :
    decodePpmCommand .setNotificationEnable
        (encodePpmCommandArgs (.setNotificationEnable 0xFFFFFFFF)) =
      .ok (.setNotificationEnable 0xFFFFFFFF, []) ∧
    decodeCommand (encodeLpmCommand ⟨127, .connectorReset⟩) =
      .ok (.lpm ⟨127, .connectorReset⟩, []) ∧
    decodeCommand (encodeLpmCommand ⟨getBits 0xFFFF 0 7, .setCcom 0xFFFF⟩) =
      .ok (.lpm ⟨getBits 0xFFFF 0 7, .setCcom 0xFFFF⟩, []) ∧
    decodeCommand (encodeLpmCommand ⟨getBits 0xFFFFFFFF 0 7, .getPdos 0xFFFFFFFF⟩) =
      .ok (.lpm ⟨getBits 0xFFFFFFFF 0 7, .getPdos 0xFFFFFFFF⟩, []) ∧
    decodeCommand (encodeLpmCommand ⟨getBits 0x0302 8 7, .getAlternateModes 0x0302⟩) =
      .ok (.lpm ⟨getBits 0x0302 8 7, .getAlternateModes 0x0302⟩, []) ∧
    decodeCommand (encodeLpmCommand ⟨getBits 0x3FFFF 0 7, .setPowerLevel 0x3FFFF⟩) =
      .ok (.lpm ⟨getBits 0x3FFFF 0 7, .setPowerLevel 0x3FFFF⟩, []) ∧
    decodeCommand (encodeLpmCommand ⟨127, .setNewCam 127 true 255 0xFFFFFFFF⟩) =
      .ok (.lpm ⟨127, .setNewCam 127 true 255 0xFFFFFFFF⟩, []) := by
  obtain ⟨h1, h2, h3, h4, h5, h6, h7, h8, h9, h10, h11, hrest⟩ := roundtrip_in_range
  exact ⟨h5 0xFFFFFFFF (by decide), (h6 127 (by decide)).1, (h7 0xFFFF (by decide)).1,
    h8 0xFFFFFFFF (by decide), h9 0x0302 (by decide) (by decide),
    h10 0x3FFFF (by decide) (by decide),
    h11 127 255 0xFFFFFFFF true (by decide) (by decide)⟩

end UsbPd
